import Mathlib

/-!
# FitAssist-AI: shallow embedding of the core pipeline

This file embeds, in Lean 4, the parts of the FitAssist-AI repository that the
verified properties refer to:

* `src/tools/energy.py` — `calculate_rmr`, `calculate_age`,
  `estimate_caloric_imbalance` (Livingston-Kohlstadt RMR and the
  two-compartment energy model);
* `src/clean/smooth_and_impute.py` — the bounded-gap time interpolation and
  the derived-column computations (RMR / TDEE_raw / TDEE / PA);
* `src/classify/compliance_nb.py` — `_ensure_features`,
  `_prepare_weekly_features`, `predict_weekly_state`;
* `src/watchdog/feature_builder.py` — `build_watchdog_features`;
* `src/watchdog/dispatcher.py` — `run_watchdog`;
* `src/predict/forecast_metric.py` — the deterministic data pipeline of
  `forecast_metric` (the XGBoost regressor itself is external and is taken as
  a parameter, exactly as the Python code treats the fitted model object);
* the Advisory Combiner, which has no implementation in the repository and is
  modelled from the specification.

Conventions used throughout:

* Python floats are embedded as exact numbers: `ℚ` wherever the source only
  adds / multiplies / divides (so everything stays computable and concrete
  instances can be checked by `decide`), and `ℝ` for the RMR formula, whose
  exponent `weight ** p` is a genuine real power.
* A missing value (pandas `NaN`) is `Option.none`; a column is a
  `List (Option ℚ)`.  Python's `max(a, b)` on floats returns `a` whenever the
  comparison `b > a` is false, which is the case when either side is `NaN`;
  the cell combinators below reproduce that asymmetry.
* A raised Python exception is `Except.error`; `PyErr.typeError`
  distinguishes `TypeError` because `run_watchdog` branches on it.
-/

attribute [local semireducible] Rat.add Rat.mul Rat.sub Rat.inv

namespace FitAssist

/-! ## `src/tools/energy.py` -/

/-- Biological sex; `src/tools/energy.py` keys its constant table `RMR`
by exactly the two strings `"male"` and `"female"`. -/
inductive Sex where
  | male : Sex
  | female : Sex
deriving DecidableEq, Repr

/-- The Livingston-Kohlstadt coefficient `c` (energy.py, the `RMR` table). -/
def rmrC : Sex → ℝ
  | Sex.male => 293
  | Sex.female => 248

/-- The Livingston-Kohlstadt exponent `p` (energy.py, the `RMR` table). -/
def rmrP : Sex → ℝ
  | Sex.male => 0.433
  | Sex.female => 0.4356

/-- The Livingston-Kohlstadt age coefficient `y` (energy.py, `RMR` table). -/
def rmrY : Sex → ℝ
  | Sex.male => 5.92
  | Sex.female => 5.09

/-- `energy.calculate_rmr(weight, age, sex, a=0)`:
`rmr = (1 - a) * c * max(weight, 0) ** p - y * age; return max(rmr, 0)`.
The adaptation factor `a` is kept as an explicit argument with the same
default everywhere it is called. -/
noncomputable def calculate_rmr (weight age : ℝ) (sex : Sex) (a : ℝ := 0) : ℝ :=
  max ((1 - a) * rmrC sex * (max weight 0) ^ (rmrP sex) - rmrY sex * age) 0

/-- `energy.calculate_age(dob, target_date)`: day difference over 365.25.
Dates are embedded as day numbers (days since the epoch). -/
def calculate_age (dob target_date : ℤ) : ℚ :=
  (target_date - dob : ℚ) / 365.25

/-- kcal/kg of fat-free mass (energy.py constant `CF`). -/
def CF : ℚ := 1020

/-- kcal/kg of fat mass (energy.py constant `CL`). -/
def CL : ℚ := 9500

/-- `energy.estimate_caloric_imbalance(delta_fm, delta_ffm)`
`= delta_fm * CL + delta_ffm * CF`. -/
def estimate_caloric_imbalance (delta_fm delta_ffm : ℚ) : ℚ :=
  delta_fm * CL + delta_ffm * CF

end FitAssist

namespace FitAssist

/-! ## Theorems for C9 (RMR monotonicity) -/

theorem rmrC_pos (s : Sex) : (0:ℝ) < rmrC s := by
  cases s <;> norm_num [rmrC]

theorem rmrP_nonneg (s : Sex) : (0:ℝ) ≤ rmrP s := by
  cases s <;> norm_num [rmrP]

theorem rmrY_nonneg (s : Sex) : (0:ℝ) ≤ rmrY s := by
  cases s <;> norm_num [rmrY]

end FitAssist

/-- C9: for fixed age and sex, `calculate_rmr` is non-decreasing in weight;
for fixed weight and sex, it is non-increasing in age. -/
theorem FitAssist.calculate_rmr_monotone :
    (∀ (s : FitAssist.Sex) (age w1 w2 : ℝ), w1 ≤ w2 →
      FitAssist.calculate_rmr w1 age s ≤ FitAssist.calculate_rmr w2 age s) ∧
    (∀ (s : FitAssist.Sex) (w a1 a2 : ℝ), a1 ≤ a2 →
      FitAssist.calculate_rmr w a2 s ≤ FitAssist.calculate_rmr w a1 s) := by
  constructor
  · intro s age w1 w2 h
    unfold FitAssist.calculate_rmr
    apply max_le_max _ le_rfl
    have hbase : max w1 0 ≤ max w2 0 := max_le_max h le_rfl
    have hpow : (max w1 0) ^ (FitAssist.rmrP s) ≤ (max w2 0) ^ (FitAssist.rmrP s) :=
      Real.rpow_le_rpow (le_max_right w1 0) hbase (FitAssist.rmrP_nonneg s)
    have hc : (0:ℝ) ≤ (1 - 0) * FitAssist.rmrC s := by
      simpa using (FitAssist.rmrC_pos s).le
    nlinarith [hpow, hc]
  · intro s w a1 a2 h
    unfold FitAssist.calculate_rmr
    apply max_le_max _ le_rfl
    have hy := FitAssist.rmrY_nonneg s
    nlinarith

/-- C9 witness: the monotonicity theorem applied at weights 50 ≤ 60 kg and
ages 30 ≤ 40 years for a male user. -/
theorem FitAssist.calculate_rmr_monotone_witness :
    FitAssist.calculate_rmr 50 30 FitAssist.Sex.male ≤
      FitAssist.calculate_rmr 60 30 FitAssist.Sex.male ∧
    FitAssist.calculate_rmr 70 40 FitAssist.Sex.male ≤
      FitAssist.calculate_rmr 70 30 FitAssist.Sex.male :=
  ⟨FitAssist.calculate_rmr_monotone.1 FitAssist.Sex.male 30 50 60 (by norm_num),
   FitAssist.calculate_rmr_monotone.2 FitAssist.Sex.male 70 30 40 (by norm_num)⟩

namespace FitAssist

/-! ## `src/clean/smooth_and_impute.py`, lines 78-91: derived columns

Cells are `Option ℝ` (`none` = pandas `NaN`).  `pyMaxCell a b` reproduces
Python's `max(a, b)` under `NaN`: comparisons against `NaN` are false, so
`max(NaN, x) = NaN` while `max(x, NaN) = x`. -/

/-- `NaN`-propagating subtraction of two float cells. -/
def subCell : Option ℝ → Option ℝ → Option ℝ
  | some a, some b => some (a - b)
  | _, _ => none

/-- Python `max(a, b)` on float cells (see section comment for `NaN`). -/
def pyMaxCell : Option ℝ → Option ℝ → Option ℝ
  | some a, some b => some (max a b)
  | some a, none => some a
  | none, _ => none

/-- One cell of the `RMR` column (smooth_and_impute.py lines 80-84):
`calculate_rmr(row["TrendWeight"], row["Age"], sex)` when `TrendWeight`
is not `NaN`, else `NaN`. -/
noncomputable def rmrCell (w : Option ℝ) (age : ℝ) (sex : Sex) : Option ℝ :=
  w.map (fun wv => calculate_rmr wv age sex)

/-- The four derived columns computed by `smooth_and_impute` lines 78-91. -/
structure DerivedCols where
  rmr : List (Option ℝ)
  tdeeRaw : List (Option ℝ)
  tdee : List (Option ℝ)
  pa : List (Option ℝ)

/-- `smooth_and_impute.py` lines 78-91:
`RMR` from `TrendWeight`/`Age`, `TDEE_raw = TrendCaloriesIn - EnergyBalance`,
`TDEE = max(TDEE_raw, RMR + 1e-3)` row-wise, and
`PA = (TDEE - RMR).clip(lower=1e-3)`. -/
noncomputable def derive_physiological (trendWeight : List (Option ℝ)) (ages : List ℝ)
    (trendCaloriesIn energyBalance : List (Option ℝ)) (sex : Sex) : DerivedCols :=
  let rmr := List.zipWith (fun w a => rmrCell w a sex) trendWeight ages
  let tdeeRaw := List.zipWith subCell trendCaloriesIn energyBalance
  let tdee := List.zipWith (fun raw r => pyMaxCell raw (r.map (· + 1e-3))) tdeeRaw rmr
  let pa := List.zipWith (fun t r => (subCell t r).map (fun x => max x 1e-3)) tdee rmr
  ⟨rmr, tdeeRaw, tdee, pa⟩

/-- Inverting a `zipWith` cell lookup. -/
theorem zipWith_get?_eq {α β γ : Type} {f : α → β → γ} :
    ∀ {l1 : List α} {l2 : List β} {i : ℕ} {z : γ},
      (List.zipWith f l1 l2).get? i = some z →
      ∃ x y, l1.get? i = some x ∧ l2.get? i = some y ∧ z = f x y
  | [], _, _, _, h => by simp [List.zipWith] at h
  | _ :: _, [], _, _, h => by simp [List.zipWith] at h
  | a :: l1, b :: l2, 0, z, h => by
      refine ⟨a, b, rfl, rfl, ?_⟩
      simpa [List.zipWith] using h.symm
  | a :: l1, b :: l2, i + 1, z, h => by
      simp only [List.zipWith, List.get?] at h
      obtain ⟨x, y, hx, hy, hz⟩ := zipWith_get?_eq h
      exact ⟨x, y, hx, hy, hz⟩

theorem calculate_rmr_nonneg (w age : ℝ) (s : Sex) : 0 ≤ calculate_rmr w age s :=
  le_max_right _ _

end FitAssist

/-- C4: `calculate_rmr` never returns a negative value, and on every row of
the frame produced by `smooth_and_impute` on which `RMR` and `TDEE` are both
defined, `RMR ≥ 0`, `TDEE ≥ RMR`, and the `TDEE` cell is exactly
`max(TrendCaloriesIn − EnergyBalance, RMR + 1e-3)`. -/
theorem FitAssist.tdee_rmr_invariant :
    (∀ (w age : ℝ) (s : FitAssist.Sex), 0 ≤ FitAssist.calculate_rmr w age s) ∧
    (∀ (tw : List (Option ℝ)) (ages : List ℝ) (tci eb : List (Option ℝ))
      (sex : FitAssist.Sex) (i : ℕ) (t r : ℝ),
      (FitAssist.derive_physiological tw ages tci eb sex).tdee.get? i = some (some t) →
      (FitAssist.derive_physiological tw ages tci eb sex).rmr.get? i = some (some r) →
      0 ≤ r ∧ r ≤ t ∧
        ∃ rawv, (FitAssist.derive_physiological tw ages tci eb sex).tdeeRaw.get? i
            = some (some rawv) ∧ t = max rawv (r + 1e-3)) := by
  refine ⟨fun w age s => FitAssist.calculate_rmr_nonneg w age s, ?_⟩
  intro tw ages tci eb sex i t r ht hr
  unfold FitAssist.derive_physiological at ht hr
  simp only at ht hr
  obtain ⟨raw, rcell, hraw, hrcell, hz⟩ := FitAssist.zipWith_get?_eq ht
  -- the rmr cell found through the tdee column is the rmr column's cell
  have hrcell' : rcell = some r := by
    rw [hrcell] at hr
    exact Option.some_injective _ hr
  subst hrcell'
  -- the rmr cell is a `calculate_rmr` value, hence non-negative
  obtain ⟨w, a, hw, ha, hval⟩ := FitAssist.zipWith_get?_eq hrcell
  have hr0 : 0 ≤ r := by
    unfold FitAssist.rmrCell at hval
    match w, hval with
    | some wv, hval =>
        have : some r = some (FitAssist.calculate_rmr wv a sex) := hval
        have := Option.some_injective _ this
        rw [this]
        exact FitAssist.calculate_rmr_nonneg wv a sex
  -- the tdee cell is `max raw (r + 1e-3)` with `raw` defined
  match raw, hz with
  | some rawv, hz =>
      have hz' : some t = some (max rawv (r + 1e-3)) := hz
      have ht' := Option.some_injective _ hz'
      refine ⟨hr0, ?_, rawv, hraw, ht'⟩
      rw [ht']
      calc r ≤ r + 1e-3 := by norm_num
        _ ≤ max rawv (r + 1e-3) := le_max_right _ _

/-- C4 witness: a one-row frame with `TrendWeight = 70`, `Age = 30`,
`TrendCaloriesIn = 2000`, `EnergyBalance = 100`; the invariant holds on it. -/
theorem FitAssist.tdee_rmr_invariant_witness :
    0 ≤ FitAssist.calculate_rmr 70 30 FitAssist.Sex.male ∧
    FitAssist.calculate_rmr 70 30 FitAssist.Sex.male ≤
      max ((2000:ℝ) - 100) (FitAssist.calculate_rmr 70 30 FitAssist.Sex.male + 1e-3) ∧
    ∃ rawv, (FitAssist.derive_physiological [some 70] [30] [some 2000] [some 100]
        FitAssist.Sex.male).tdeeRaw.get? 0 = some (some rawv) ∧
      max ((2000:ℝ) - 100) (FitAssist.calculate_rmr 70 30 FitAssist.Sex.male + 1e-3)
        = max rawv (FitAssist.calculate_rmr 70 30 FitAssist.Sex.male + 1e-3) :=
  FitAssist.tdee_rmr_invariant.2 [some 70] [30] [some 2000] [some 100]
    FitAssist.Sex.male 0
    (max ((2000:ℝ) - 100) (FitAssist.calculate_rmr 70 30 FitAssist.Sex.male + 1e-3))
    (FitAssist.calculate_rmr 70 30 FitAssist.Sex.male) rfl rfl

namespace FitAssist

/-! ## `src/clean/smooth_and_impute.py`, lines 40-49: bounded-gap interpolation

`df[col].interpolate(method="time", limit=span, limit_direction="both")`
over a date-indexed series.  A series is a list of
`(timestamp, value-or-NaN)` pairs, timestamps in days.  pandas semantics:

* values are time-proportional linear interpolations between the
  neighbouring valid observations (clamped to the boundary value when only
  one side has data);
* `limit = L` fills at most `L` consecutive `NaN`s, and
  `limit_direction = "both"` applies that cap from each end of a `NaN` run
  independently, so a run of `g` consecutive `NaN`s has its first `L` and
  its last `L` positions filled.
-/

/-- `List.map` with the element's position, starting at `n`. -/
def mapIdxFrom {α β : Type} (f : ℕ → α → β) : ℕ → List α → List β
  | _, [] => []
  | n, x :: l => f n x :: mapIdxFrom f (n + 1) l

/-- The positions (with timestamp and value) of the non-`NaN` entries,
positions counted from `n`. -/
def validEntriesFrom : ℕ → List (ℤ × Option ℚ) → List (ℕ × ℤ × ℚ)
  | _, [] => []
  | n, (t, some v) :: rest => (n, t, v) :: validEntriesFrom (n + 1) rest
  | n, (_, none) :: rest => validEntriesFrom (n + 1) rest

/-- The positions of the non-`NaN` entries of a series. -/
def validEntries (xs : List (ℤ × Option ℚ)) : List (ℕ × ℤ × ℚ) :=
  validEntriesFrom 0 xs

/-- The last valid observation strictly before position `i`. -/
def prevValid (xs : List (ℤ × Option ℚ)) (i : ℕ) : Option (ℕ × ℤ × ℚ) :=
  ((validEntries xs).filter (fun e => e.1 < i)).getLast?

/-- The first valid observation strictly after position `i`. -/
def nextValid (xs : List (ℤ × Option ℚ)) (i : ℕ) : Option (ℕ × ℤ × ℚ) :=
  ((validEntries xs).filter (fun e => i < e.1)).head?

/-- The value `interpolate(method="time", limit=L, limit_direction="both")`
puts at a `NaN` cell at position `i`, timestamp `t`: the time-proportional
linear interpolation between the neighbouring valid observations, provided
the position is within `L` of a valid observation on at least one side. -/
def interpCell (L : ℕ) (xs : List (ℤ × Option ℚ)) (i : ℕ) (t : ℤ) : Option ℚ :=
  match prevValid xs i, nextValid xs i with
  | some (j, tj, vj), some (k, tk, vk) =>
      if i - j ≤ L ∨ k - i ≤ L then
        some (vj + (vk - vj) * ((t - tj : ℤ) : ℚ) / ((tk - tj : ℤ) : ℚ))
      else none
  | some (j, _, vj), none => if i - j ≤ L then some vj else none
  | none, some (k, _, vk) => if k - i ≤ L then some vk else none
  | none, none => none

/-- `series.interpolate(method="time", limit=L, limit_direction="both")`:
valid cells are kept, `NaN` cells are filled by `interpCell`. -/
def interpolate_time_both (L : ℕ) (xs : List (ℤ × Option ℚ)) :
    List (ℤ × Option ℚ) :=
  mapIdxFrom (fun i cell =>
    match cell with
    | (t, some v) => (t, some v)
    | (t, none) => (t, interpCell L xs i t)) 0 xs

/-- A daily series holding value `a` on day 0, value `b` on day `g + 1`,
and an internal gap of `g` consecutive missing days in between. -/
def gapSeries (a b : ℚ) (g : ℕ) : List (ℤ × Option ℚ) :=
  (((0 : ℤ), some a) :: (List.range g).map (fun (i : ℕ) => (((i : ℤ) + 1), none)))
    ++ [(((g : ℤ) + 1), some b)]

theorem mapIdxFrom_get? {α β : Type} (f : ℕ → α → β) :
    ∀ (n : ℕ) (l : List α) (i : ℕ),
      (mapIdxFrom f n l).get? i = (l.get? i).map (f (n + i))
  | _, [], _ => by simp [mapIdxFrom]
  | n, x :: l, 0 => by simp [mapIdxFrom]
  | n, x :: l, i + 1 => by
      have step : (mapIdxFrom f n (x :: l)).get? (i + 1)
          = (mapIdxFrom f (n + 1) l).get? i := rfl
      rw [step, mapIdxFrom_get? f (n + 1) l i]
      have harith : n + 1 + i = n + (i + 1) := by omega
      rw [harith]
      rfl

theorem validEntriesFrom_none_append (rest : List (ℤ × Option ℚ)) :
    ∀ (l : List (ℤ × Option ℚ)) (n : ℕ), (∀ x ∈ l, x.2 = none) →
      validEntriesFrom n (l ++ rest) = validEntriesFrom (n + l.length) rest
  | [], n, _ => by simp [validEntriesFrom]
  | (t, v) :: l, n, h => by
      have hv : v = none := h (t, v) (List.mem_cons_self _ _)
      subst hv
      have step : validEntriesFrom n (((t, none) :: l) ++ rest)
          = validEntriesFrom (n + 1) (l ++ rest) := rfl
      rw [step, validEntriesFrom_none_append rest l (n + 1)
        (fun x hx => h x (List.mem_cons_of_mem _ hx))]
      have harith : n + 1 + l.length = n + ((t, (none : Option ℚ)) :: l).length := by
        simp [List.length_cons]
        omega
      rw [harith]

theorem validEntries_gapSeries (a b : ℚ) (g : ℕ) :
    validEntries (gapSeries a b g) = [(0, (0 : ℤ), a), (g + 1, ((g : ℤ) + 1), b)] := by
  unfold validEntries gapSeries
  have step : validEntriesFrom 0
      (((((0 : ℤ), some a) :: (List.range g).map (fun (i : ℕ) => (((i : ℤ) + 1), none)))
        ++ [(((g : ℤ) + 1), some b)]))
      = (0, (0 : ℤ), a) :: validEntriesFrom 1
          (((List.range g).map (fun (i : ℕ) => (((i : ℤ) + 1), (none : Option ℚ))))
            ++ [(((g : ℤ) + 1), some b)]) := rfl
  rw [step, validEntriesFrom_none_append [(((g : ℤ) + 1), some b)]
    ((List.range g).map (fun (i : ℕ) => (((i : ℤ) + 1), none))) 1
    (by intro x hx; simp only [List.mem_map] at hx; obtain ⟨i, _, rfl⟩ := hx; rfl)]
  have hlen : 1 + ((List.range g).map (fun (i : ℕ) => (((i : ℤ) + 1), (none : Option ℚ)))).length
      = g + 1 := by
    simp [List.length_map, List.length_range]
    omega
  rw [hlen]
  rfl

theorem gapSeries_get?_mid (a b : ℚ) (g i : ℕ) (h1 : 1 ≤ i) (h2 : i ≤ g) :
    (gapSeries a b g).get? i = some ((i : ℤ), none) := by
  obtain ⟨j, rfl⟩ : ∃ j, i = j + 1 := ⟨1 - 1 + (i - 1), by omega⟩
  unfold gapSeries
  have step : (((((0 : ℤ), some a) :: (List.range g).map (fun (k : ℕ) => (((k : ℤ) + 1), none)))
      ++ [(((g : ℤ) + 1), some b)])).get? (j + 1)
      = ((List.range g).map (fun (k : ℕ) => (((k : ℤ) + 1), (none : Option ℚ)))
          ++ [(((g : ℤ) + 1), some b)]).get? j := rfl
  rw [step, List.get?_append (by simp [List.length_map, List.length_range]; omega),
    List.get?_map, List.get?_range (by omega)]
  rw [Option.map_some']
  simp only [Option.some.injEq, Prod.mk.injEq]
  refine ⟨by push_cast; ring, trivial⟩

theorem prevValid_gapSeries (a b : ℚ) (g i : ℕ) (h1 : 1 ≤ i) (h2 : i ≤ g) :
    prevValid (gapSeries a b g) i = some (0, (0 : ℤ), a) := by
  unfold prevValid
  rw [validEntries_gapSeries]
  have c1 : 0 < i := h1
  have c2 : ¬(g + 1 < i) := by omega
  simp [List.filter, c1, c2]

theorem nextValid_gapSeries (a b : ℚ) (g i : ℕ) (h1 : 1 ≤ i) (h2 : i ≤ g) :
    nextValid (gapSeries a b g) i = some (g + 1, ((g : ℤ) + 1), b) := by
  unfold nextValid
  rw [validEntries_gapSeries]
  have c1 : ¬(i < 0) := by omega
  have c2 : i < g + 1 := by omega
  simp [List.filter, c1, c2]

end FitAssist

/-- C1 (amended): inside an internal gap of `g` consecutive missing days,
`interpolate(method="time", limit=span, limit_direction="both")` fills a
position if and only if it lies within `span` days of either end of the gap
(with the time-proportional linear value), so undefined days remain only in
gaps longer than `2·span`, namely the `g − 2·span` middle days. -/
theorem FitAssist.interpolation_gap_bound (a b : ℚ) (g L i : ℕ)
    (h1 : 1 ≤ i) (h2 : i ≤ g) :
    (FitAssist.interpolate_time_both L (FitAssist.gapSeries a b g)).get? i
      = some ((i : ℤ),
          if i ≤ L ∨ g + 1 - i ≤ L then
            some (a + (b - a) * (i : ℚ) / ((g : ℚ) + 1))
          else none) := by
  unfold FitAssist.interpolate_time_both
  rw [FitAssist.mapIdxFrom_get?]
  rw [FitAssist.gapSeries_get?_mid a b g i h1 h2]
  rw [Option.map_some']
  have hcell : FitAssist.interpCell L (FitAssist.gapSeries a b g) i (i : ℤ)
      = if i ≤ L ∨ g + 1 - i ≤ L then
          some (a + (b - a) * (i : ℚ) / ((g : ℚ) + 1))
        else none := by
    unfold FitAssist.interpCell
    rw [FitAssist.prevValid_gapSeries a b g i h1 h2,
      FitAssist.nextValid_gapSeries a b g i h1 h2]
    simp only [Nat.sub_zero]
    by_cases hc : i ≤ L ∨ g + 1 - i ≤ L
    · rw [if_pos hc, if_pos hc]
      congr 1
      push_cast
      ring
    · rw [if_neg hc, if_neg hc]
  simp only [Nat.zero_add]
  rw [hcell]

/-- C1 counterexample: with `span = 7`, a 10-day internal gap is interpolated
at every one of its 10 days (pandas fills up to `span` missing entries from
each side of the gap), so no day at all is left undefined — the claim's
"at least 3 days undefined in the middle" fails. -/
theorem FitAssist.interpolation_gap10_span7_filled :
    ((FitAssist.interpolate_time_both 7 (FitAssist.gapSeries 0 11 10)).countP
        (fun c => c.2.isNone) = 0) ∧
    (FitAssist.interpolate_time_both 7 (FitAssist.gapSeries 0 11 10)).length = 12 ∧
    (FitAssist.interpolate_time_both 7 (FitAssist.gapSeries 0 11 10)).all
      (fun c => c.2.isSome) = true := by
  refine ⟨by decide, by decide, by decide⟩

/-- C1 witness: the amended bound applied to a 17-day gap with `span = 7`:
day 9 (more than 7 days from both gap ends) stays undefined, while day 7 is
filled with the time-proportional value. -/
theorem FitAssist.interpolation_gap_bound_witness :
    (FitAssist.interpolate_time_both 7 (FitAssist.gapSeries 0 18 17)).get? 9
      = some ((9 : ℤ), none) ∧
    (FitAssist.interpolate_time_both 7 (FitAssist.gapSeries 0 18 17)).get? 7
      = some ((7 : ℤ), some (0 + (18 - 0) * (7 : ℚ) / ((17 : ℚ) + 1))) := by
  constructor
  · rw [FitAssist.interpolation_gap_bound 0 18 17 7 9 (by norm_num) (by norm_num)]
    norm_num
  · rw [FitAssist.interpolation_gap_bound 0 18 17 7 7 (by norm_num) (by norm_num)]
    norm_num

namespace FitAssist

/-! ## Advisory Combiner (spec §4.5)

No module in the repository implements the combine step (nothing under
`src/` calls `predict_weekly_state` or `run_watchdog`, and no file merges a
classifier state with an alert list), so it is modelled from the spec. -/

/-- Modelled from the spec: the fixed CRITICAL set of alert codes of §4.5
("UnsafeIntake, RapidWeightLoss, RapidWeightGain, LowRMR"); the combine
step itself is missing from the repository. -/
def CRITICAL : List String :=
  ["UnsafeIntake", "RapidWeightLoss", "RapidWeightGain", "LowRMR"]

/-- Modelled from the spec: the Advisory Combiner of §4.5, which is missing
from the repository.  "Pure function from (classifier state, list of
watchdog alerts) → final state string.  Precedence: if any alert code is in
a fixed CRITICAL set, final state is forced to off_track regardless of the
classifier's output.  Else if a MetabolicAdapt alert is present, final
state is forced to at_risk.  Else the classifier's own state stands
unchanged." -/
def combine_advisory (state : String) (alerts : List (String × String)) : String :=
  if alerts.any (fun a => CRITICAL.contains a.1) then "off_track"
  else if alerts.any (fun a => a.1 == "MetabolicAdapt") then "at_risk"
  else state

end FitAssist

/-- C2: for every classifier state and alert list, the Advisory Combiner
returns "off_track" when a critical alert is present, otherwise "at_risk"
when a MetabolicAdapt alert is present, otherwise the classifier state —
and in particular "on_track" plus an UnsafeIntake alert gives "off_track". -/
theorem FitAssist.combine_advisory_precedence (s : String)
    (A : List (String × String)) :
    ((∃ a ∈ A, a.1 ∈ FitAssist.CRITICAL) →
      FitAssist.combine_advisory s A = "off_track") ∧
    ((∀ a ∈ A, a.1 ∉ FitAssist.CRITICAL) → (∃ a ∈ A, a.1 = "MetabolicAdapt") →
      FitAssist.combine_advisory s A = "at_risk") ∧
    ((∀ a ∈ A, a.1 ∉ FitAssist.CRITICAL ∧ a.1 ≠ "MetabolicAdapt") →
      FitAssist.combine_advisory s A = s) ∧
    (∀ m : String, FitAssist.combine_advisory "on_track" (("UnsafeIntake", m) :: A)
      = "off_track") := by
  refine ⟨?_, ?_, ?_, ?_⟩
  · intro ⟨a, ha, hc⟩
    unfold FitAssist.combine_advisory
    rw [if_pos]
    rw [List.any_eq_true]
    exact ⟨a, ha, by simpa using hc⟩
  · intro hnc ⟨a, ha, hm⟩
    unfold FitAssist.combine_advisory
    rw [if_neg, if_pos]
    · rw [List.any_eq_true]
      exact ⟨a, ha, by simpa using hm⟩
    · rw [List.any_eq_true]
      rintro ⟨x, hx, hcx⟩
      exact hnc x hx (by simpa using hcx)
  · intro h
    unfold FitAssist.combine_advisory
    rw [if_neg, if_neg]
    · rw [List.any_eq_true]
      rintro ⟨x, hx, hcx⟩
      exact (h x hx).2 (by simpa using hcx)
    · rw [List.any_eq_true]
      rintro ⟨x, hx, hcx⟩
      exact (h x hx).1 (by simpa using hcx)
  · intro m
    unfold FitAssist.combine_advisory
    rw [if_pos]
    rw [List.any_eq_true]
    exact ⟨("UnsafeIntake", m), List.mem_cons_self _ _, by simp [FitAssist.CRITICAL]⟩

/-- C2 witness: the precedence theorem applied to concrete inputs —
"on_track" with an UnsafeIntake alert combines to "off_track", a sole
MetabolicAdapt alert to "at_risk", and an empty alert list leaves the
classifier state unchanged. -/
theorem FitAssist.combine_advisory_precedence_witness :
    FitAssist.combine_advisory "on_track" [("UnsafeIntake", "low intake")]
      = "off_track" ∧
    FitAssist.combine_advisory "on_track" [("MetabolicAdapt", "plateau")]
      = "at_risk" ∧
    FitAssist.combine_advisory "at_risk" ([] : List (String × String)) = "at_risk" :=
  ⟨(FitAssist.combine_advisory_precedence "on_track" []).2.2.2 "low intake",
   (FitAssist.combine_advisory_precedence "on_track"
      [("MetabolicAdapt", "plateau")]).2.1
     (by intro a ha; simp at ha; simp [ha, FitAssist.CRITICAL])
     ⟨("MetabolicAdapt", "plateau"), by simp, rfl⟩,
   (FitAssist.combine_advisory_precedence "at_risk" []).2.2.1 (by simp)⟩

namespace FitAssist

/-! ## Data frames and the ISO calendar

A pandas data frame is embedded as a list of day-number dates (the `date`
column) plus an ordered association list of named numeric columns; a column
cell is `Option ℚ` (`none` = `NaN`).  Column assignment keeps an existing
column's position and appends a new column at the end, as pandas does. -/

structure Frame where
  dates : List ℤ
  cols : List (String × List (Option ℚ))
deriving Repr

/-- Column lookup, `none` when the column is absent. -/
def Frame.get? (f : Frame) (name : String) : Option (List (Option ℚ)) :=
  (f.cols.find? (fun c => c.1 == name)).map (fun c => c.2)

/-- `name in df.columns`. -/
def Frame.hasCol (f : Frame) (name : String) : Bool :=
  f.cols.any (fun c => c.1 == name)

/-- `df[name] = col`: replace in place, or append at the end when new. -/
def Frame.set (f : Frame) (name : String) (col : List (Option ℚ)) : Frame :=
  if f.hasCol name then
    ⟨f.dates, f.cols.map (fun c => if c.1 == name then (name, col) else c)⟩
  else
    ⟨f.dates, f.cols ++ [(name, col)]⟩

/-- A raised Python exception; `TypeError` is distinguished because the
watchdog dispatcher branches on it. -/
inductive PyErr where
  | typeError : PyErr
  | other : String → PyErr
deriving DecidableEq, Repr

/-- `df[name]`, raising `KeyError` when absent. -/
def Frame.col! (f : Frame) (name : String) : Except PyErr (List (Option ℚ)) :=
  match f.get? name with
  | some c => Except.ok c
  | none => Except.error (PyErr.other ("KeyError: " ++ name))

/-! ### ISO-8601 calendar on day numbers (pandas `Series.dt.isocalendar()`)

Dates are days since 1970-01-01.  The civil-calendar arithmetic follows the
standard days-from-civil / civil-from-days identities with floor division. -/

/-- Gregorian calendar year of day number `z`. -/
def civilYear (z : ℤ) : ℤ :=
  let days := z + 719468
  let era := Int.fdiv days 146097
  let doe := days - era * 146097
  let yoe := Int.fdiv (doe - Int.fdiv doe 1460 + Int.fdiv doe 36524
    - Int.fdiv doe 146096) 365
  let y := yoe + era * 400
  let doy := doe - (365 * yoe + Int.fdiv yoe 4 - Int.fdiv yoe 100)
  let mp := Int.fdiv (5 * doy + 2) 153
  let m := mp + (if mp < 10 then 3 else -9)
  y + (if m ≤ 2 then 1 else 0)

/-- Day number of January 1 of calendar year `y`. -/
def daysFromCivilJan1 (y : ℤ) : ℤ :=
  let yy := y - 1
  let era := Int.fdiv yy 400
  let yoe := yy - era * 400
  let doe := yoe * 365 + Int.fdiv yoe 4 - Int.fdiv yoe 100 + 306
  era * 146097 + doe - 719468

/-- ISO weekday of day number `z` (1 = Monday … 7 = Sunday). -/
def isoWeekday (z : ℤ) : ℤ :=
  Int.emod (z + 3) 7 + 1

/-- Weekday offset of a year used by the 52/53-week rule. -/
def pIso (y : ℤ) : ℤ :=
  Int.emod (y + Int.fdiv y 4 - Int.fdiv y 100 + Int.fdiv y 400) 7

/-- Number of ISO weeks (52 or 53) in ISO year `y`. -/
def weeksInISOYear (y : ℤ) : ℤ :=
  if pIso y = 4 ∨ pIso (y - 1) = 3 then 53 else 52

/-- `(ISO year, ISO week)` of day number `z`. -/
def isoYearWeek (z : ℤ) : ℤ × ℤ :=
  let y := civilYear z
  let doy := z - daysFromCivilJan1 y + 1
  let w := Int.fdiv (doy - isoWeekday z + 10) 7
  if w < 1 then (y - 1, weeksInISOYear (y - 1))
  else if weeksInISOYear y < w then (y + 1, 1)
  else (y, w)

/-! ### Group-by and aggregation helpers (pandas `groupby(...).agg(...)`) -/

/-- Insert into a sorted list, strictly-before semantics (stable). -/
def insertBy {α : Type} (lt : α → α → Bool) (x : α) : List α → List α
  | [] => [x]
  | y :: ys => if lt x y then x :: y :: ys else y :: insertBy lt x ys

/-- Stable insertion sort. -/
def sortBy {α : Type} (lt : α → α → Bool) (l : List α) : List α :=
  l.foldr (insertBy lt) []

/-- Strict lexicographic order on `(ISO year, ISO week)` keys. -/
def keyLt (a b : ℤ × ℤ) : Bool :=
  a.1 < b.1 || (a.1 == b.1 && a.2 < b.2)

/-- The distinct group keys of a row list, in ascending order
(pandas `groupby` sorts its group keys). -/
def groupKeys {ρ : Type} (key : ρ → ℤ × ℤ) (rows : List ρ) : List (ℤ × ℤ) :=
  sortBy keyLt ((rows.map key).dedup)

/-- `s.mean()` with pandas `NaN` skipping: `NaN` when no value is present. -/
def meanQ (cells : List (Option ℚ)) : Option ℚ :=
  let v := cells.filterMap id
  if v.isEmpty then none else some (v.sum / v.length)

/-- `groupby(...).first()`: the first non-`NaN` value. -/
def firstQ (cells : List (Option ℚ)) : Option ℚ :=
  (cells.filterMap id).head?

/-- `groupby(...).last()`: the last non-`NaN` value. -/
def lastQ (cells : List (Option ℚ)) : Option ℚ :=
  (cells.filterMap id).getLast?

/-- `s.mean()` over real-valued cells. -/
noncomputable def meanR (cells : List (Option ℝ)) : Option ℝ :=
  let v := cells.filterMap id
  if v.isEmpty then none else some (v.sum / v.length)

/-- `s.max()` over real-valued cells (`NaN` when everything is missing). -/
noncomputable def maxR (cells : List (Option ℝ)) : Option ℝ :=
  match cells.filterMap id with
  | [] => none
  | x :: xs => some (xs.foldl max x)

/-- Maximum of a non-empty list of dates (`("date", "max")` aggregation). -/
def maxZ (l : List ℤ) : ℤ :=
  match l with
  | [] => 0
  | x :: xs => xs.foldl max x

/-- `df.tail(n)`. -/
def tailN {α : Type} (n : ℕ) (l : List α) : List α :=
  l.drop (l.length - n)

end FitAssist

namespace FitAssist

/-! ## `src/watchdog/feature_builder.py` and `src/watchdog/dispatcher.py` -/

/-- One row of the weekly feature window produced by
`build_watchdog_features` (after the `rmr`/`adaptation` rename). -/
structure WeeklyRow where
  week_end_date : ℤ
  mean_cal_in : Option ℚ
  mean_net_cal : Option ℚ
  mean_pa : Option ℚ
  start_wt : Option ℚ
  end_wt : Option ℚ
  wt_change : Option ℚ
  rmr : Option ℝ
  adaptation : Option ℝ

instance : Inhabited WeeklyRow :=
  ⟨⟨0, none, none, none, none, none, none, none, none⟩⟩

/-- One daily row as seen inside `build_watchdog_features` after the
`TrendNetCalories` / `Age` / `RMR` / `adapt` columns are in place. -/
structure DRow where
  date : ℤ
  tci : Option ℚ
  tnc : Option ℚ
  tacb : Option ℚ
  tw : Option ℚ
  rmr : Option ℝ
  adapt : Option ℝ

/-- `NaN`-propagating subtraction on rational cells. -/
def subQ : Option ℚ → Option ℚ → Option ℚ
  | some a, some b => some (a - b)
  | _, _ => none

/-- `feature_builder.build_watchdog_features(df, dob, sex)`:
derives `TrendNetCalories` when absent (raising `KeyError` when the
calories columns are missing too), computes `Age`, `RMR` and the
adaptation fraction `1 - RMR/peak`, aggregates per ISO week
(`mean_cal_in`, `mean_net_cal`, `mean_pa`, `start/end` trend weight,
`wt_change`, mean `rmr`, mean `adaptation`), sorts by week end date and
keeps the 12 most recent weeks. -/
noncomputable def build_watchdog_features (df : Frame) (dob : ℤ) (sex : Sex) :
    Except PyErr (List WeeklyRow) :=
  -- lines 60-65: guarantee the net-calories field
  match (match df.get? "TrendNetCalories" with
    | some c => Except.ok c
    | none =>
      match df.col! "TrendCaloriesIn", df.col! "TrendBasalCaloriesBurned",
          df.col! "TrendActiveCaloriesBurned" with
      | Except.ok tci, Except.ok tbcb, Except.ok tacb =>
          Except.ok (List.zipWith subQ (List.zipWith subQ tci tbcb) tacb)
      | Except.error e, _, _ => Except.error e
      | _, Except.error e, _ => Except.error e
      | _, _, Except.error e => Except.error e) with
  | Except.error e => Except.error e
  | Except.ok tnc =>
  -- lines 72-76: Age, RMR and adaptation vs. the peak RMR; lines 79-104:
  -- weekly aggregation, sort, rename, tail(12)
  match df.col! "TrendWeight", df.col! "TrendCaloriesIn",
      df.col! "TrendActiveCaloriesBurned" with
  | Except.error e, _, _ => Except.error e
  | _, Except.error e, _ => Except.error e
  | _, _, Except.error e => Except.error e
  | Except.ok tw, Except.ok tci, Except.ok tacb =>
  let ages := df.dates.map (fun d => calculate_age dob d)
  let rmr := List.zipWith
    (fun (w : Option ℚ) (a : ℚ) => w.map (fun wv => calculate_rmr (wv : ℝ) (a : ℝ) sex))
    tw ages
  let peak := maxR rmr
  let adapt := rmr.map (fun rc =>
    match rc, peak with
    | some r, some p => some (1 - r / p)
    | _, _ => none)
  let rows := (List.range df.dates.length).map (fun i =>
    DRow.mk (df.dates.getD i 0) (tci.getD i none) (tnc.getD i none)
      (tacb.getD i none) (tw.getD i none) (rmr.getD i none) (adapt.getD i none))
  let keys := groupKeys (fun r => isoYearWeek r.date) rows
  let weekly := keys.map (fun k =>
    let grp := rows.filter (fun r => isoYearWeek r.date == k)
    let startW := firstQ (grp.map (fun r => r.tw))
    let endW := lastQ (grp.map (fun r => r.tw))
    WeeklyRow.mk (maxZ (grp.map (fun r => r.date)))
      (meanQ (grp.map (fun r => r.tci)))
      (meanQ (grp.map (fun r => r.tnc)))
      (meanQ (grp.map (fun r => r.tacb)))
      startW endW (subQ endW startW)
      (meanR (grp.map (fun r => r.rmr)))
      (meanR (grp.map (fun r => r.adapt))))
  Except.ok (tailN 12 (sortBy (fun a b => a.week_end_date < b.week_end_date) weekly))

/-- An alert, `(code, message)`. -/
def Alert := String × String

/-- A registered watchdog rule as the dispatcher sees it: calling it with
the full keyword context, or bare with only `(latest, weekly)`, either
returns an optional alert or raises.  `rules.ALL_RULES` is an extensible
module-level registry, so the dispatcher is embedded over an arbitrary
list of registered rules. -/
structure Rule where
  full : WeeklyRow → List WeeklyRow → Except PyErr (Option Alert)
  bare : WeeklyRow → List WeeklyRow → Except PyErr (Option Alert)

/-- One iteration of the dispatcher loop (`dispatcher.py` lines 37-42):
try the full-signature call; on `TypeError` — and only on `TypeError` —
fall back to the bare call.  Any other outcome is passed through. -/
def evalRule (r : Rule) (latest : WeeklyRow) (weekly : List WeeklyRow) :
    Except PyErr (Option Alert) :=
  match r.full latest weekly with
  | Except.error PyErr.typeError => r.bare latest weekly
  | out => out

/-- The dispatcher loop over the registered rules, collecting non-`None`
results in registration order; an uncaught exception aborts the loop. -/
def runRules (latest : WeeklyRow) (weekly : List WeeklyRow) :
    List Rule → Except PyErr (List Alert)
  | [] => Except.ok []
  | r :: rs =>
    match evalRule r latest weekly with
    | Except.error e => Except.error e
    | Except.ok out =>
      match runRules latest weekly rs with
      | Except.error e => Except.error e
      | Except.ok rest =>
          Except.ok ((match out with | some a => [a] | none => []) ++ rest)

/-- `dispatcher.run_watchdog(df_daily, dob, sex, goal_info)`: build the
weekly window; return the single `NoData` alert when it is empty; otherwise
evaluate every registered rule on the latest week. -/
noncomputable def run_watchdog (df : Frame) (dob : ℤ) (sex : Sex)
    (rules : List Rule) : Except PyErr (List Alert) :=
  match build_watchdog_features df dob sex with
  | Except.error e => Except.error e
  | Except.ok weekly =>
    if weekly.isEmpty then
      Except.ok [("NoData", "No weekly data available for watchdog checks")]
    else
      runRules (weekly.getLast!) weekly rules

/-- The alert codes of the documented rule catalog (`rules.py`). -/
def ruleCatalogCodes : List String :=
  ["UnsafeIntake", "RapidWeightLoss", "RapidWeightGain", "LowRMR",
   "MismatchDeficit", "MetabolicAdapt", "StaleData",
   "GoalNotReached", "GoalTimingDrift"]

end FitAssist

/-- C10: whenever the weekly aggregation of the daily frame is empty,
`run_watchdog` returns exactly the one-element `NoData` alert list — whose
code lies outside the documented rule catalog — for every registered rule
list, so no rule is evaluated. -/
theorem FitAssist.run_watchdog_nodata (df : FitAssist.Frame) (dob : ℤ)
    (sex : FitAssist.Sex) (rules : List FitAssist.Rule)
    (h : FitAssist.build_watchdog_features df dob sex = Except.ok []) :
    FitAssist.run_watchdog df dob sex rules
      = Except.ok [("NoData", "No weekly data available for watchdog checks")] ∧
    "NoData" ∉ FitAssist.ruleCatalogCodes := by
  constructor
  · unfold FitAssist.run_watchdog
    rw [h]
    rfl
  · decide

/-- C10 witness: a daily frame with the trend columns present but zero
rows; its weekly aggregation is empty and the `NoData` alert is returned
(with the empty registered-rule list as one concrete instance). -/
theorem FitAssist.run_watchdog_nodata_witness :
    FitAssist.run_watchdog
        ⟨[], [("TrendNetCalories", []), ("TrendCaloriesIn", []),
              ("TrendActiveCaloriesBurned", []), ("TrendWeight", [])]⟩
        0 FitAssist.Sex.male []
      = Except.ok [("NoData", "No weekly data available for watchdog checks")] ∧
    "NoData" ∉ FitAssist.ruleCatalogCodes :=
  FitAssist.run_watchdog_nodata
    ⟨[], [("TrendNetCalories", []), ("TrendCaloriesIn", []),
          ("TrendActiveCaloriesBurned", []), ("TrendWeight", [])]⟩
    0 FitAssist.Sex.male [] rfl

namespace FitAssist

/-- A one-day daily frame giving a non-empty weekly watchdog window. -/
def oneDayFrame : Frame :=
  ⟨[19723], [("TrendNetCalories", [some (-300)]), ("TrendCaloriesIn", [some 1800]),
    ("TrendActiveCaloriesBurned", [some 400]), ("TrendWeight", [some 80])]⟩

/-- A registered rule whose evaluation raises a non-`TypeError` exception
(e.g. a `KeyError` on a missing weekly field). -/
def crashingRule : Rule :=
  ⟨fun _ _ => Except.error (PyErr.other "KeyError"),
   fun _ _ => Except.error (PyErr.other "KeyError")⟩

/-- A registered rule that evaluates normally and produces one alert. -/
def healthyRule : Rule :=
  ⟨fun _ _ => Except.ok (some ("MismatchDeficit", "deficit but weight up")),
   fun _ _ => Except.ok (some ("MismatchDeficit", "deficit but weight up"))⟩

theorem runRules_abort (latest : WeeklyRow) (weekly : List WeeklyRow)
    (e : PyErr) (he : e ≠ PyErr.typeError) :
    ∀ (rs1 : List Rule) (r : Rule) (rs2 : List Rule),
      (∀ r' ∈ rs1, ∃ out, evalRule r' latest weekly = Except.ok out) →
      r.full latest weekly = Except.error e →
      runRules latest weekly (rs1 ++ r :: rs2) = Except.error e
  | [], r, rs2, _, hr => by
      have hev : evalRule r latest weekly = Except.error e := by
        cases e with
        | typeError => exact absurd rfl he
        | other s =>
            unfold evalRule
            rw [hr]
      simp only [List.nil_append, runRules, hev]
  | r1 :: rs1, r, rs2, hok, hr => by
      obtain ⟨out, hout⟩ := hok r1 (List.mem_cons_self _ _)
      have ih := runRules_abort latest weekly e he rs1 r rs2
        (fun x hx => hok x (List.mem_cons_of_mem _ hx)) hr
      rw [List.cons_append]
      show (match evalRule r1 latest weekly with
        | Except.error e => Except.error e
        | Except.ok out =>
          match runRules latest weekly (rs1 ++ r :: rs2) with
          | Except.error e => Except.error e
          | Except.ok rest =>
              Except.ok ((match out with | some a => [a] | none => []) ++ rest))
        = Except.error e
      rw [hout, ih]

end FitAssist

/-- C5 (amended): the dispatcher catches only `TypeError` from a rule's
full-signature call, falling back to the bare `(latest, weekly)` call; a
rule raising any other exception makes `run_watchdog` propagate that
exception and abort the whole pass — alerts of the remaining rules are
lost, not isolated per-rule. -/
theorem FitAssist.run_watchdog_rule_error (df : FitAssist.Frame) (dob : ℤ)
    (sex : FitAssist.Sex) (weekly : List FitAssist.WeeklyRow)
    (rs1 : List FitAssist.Rule) (r : FitAssist.Rule) (rs2 : List FitAssist.Rule)
    (e : FitAssist.PyErr)
    (hb : FitAssist.build_watchdog_features df dob sex = Except.ok weekly)
    (hne : weekly ≠ [])
    (he : e ≠ FitAssist.PyErr.typeError)
    (hok : ∀ r' ∈ rs1, ∃ out,
      FitAssist.evalRule r' (weekly.getLast!) weekly = Except.ok out)
    (hr : r.full (weekly.getLast!) weekly = Except.error e) :
    FitAssist.run_watchdog df dob sex (rs1 ++ r :: rs2) = Except.error e ∧
    (∀ (r2 : FitAssist.Rule) (latest : FitAssist.WeeklyRow)
        (wk : List FitAssist.WeeklyRow),
      r2.full latest wk = Except.error FitAssist.PyErr.typeError →
      FitAssist.evalRule r2 latest wk = r2.bare latest wk) := by
  constructor
  · unfold FitAssist.run_watchdog
    rw [hb]
    have hempty : weekly.isEmpty = false := by
      cases weekly with
      | nil => exact absurd rfl hne
      | cons a l => rfl
    show (if weekly.isEmpty = true then
        Except.ok [("NoData", "No weekly data available for watchdog checks")]
      else FitAssist.runRules (weekly.getLast!) weekly (rs1 ++ r :: rs2))
      = Except.error e
    rw [if_neg (by simp [hempty])]
    exact FitAssist.runRules_abort (weekly.getLast!) weekly e he rs1 r rs2 hok hr
  · intro r2 latest wk h2
    unfold FitAssist.evalRule
    rw [h2]

/-- C5 counterexample: on a one-day frame (non-empty weekly window), a rule
raising a non-`TypeError` exception makes `run_watchdog` abort with that
exception instead of returning the alert the other registered rule
produces (second conjunct: alone, that rule does produce its alert). -/
theorem FitAssist.run_watchdog_no_isolation :
    FitAssist.run_watchdog FitAssist.oneDayFrame 0 FitAssist.Sex.male
        [FitAssist.crashingRule, FitAssist.healthyRule]
      = Except.error (FitAssist.PyErr.other "KeyError") ∧
    FitAssist.run_watchdog FitAssist.oneDayFrame 0 FitAssist.Sex.male
        [FitAssist.healthyRule]
      = Except.ok [("MismatchDeficit", "deficit but weight up")] :=
  ⟨rfl, rfl⟩

namespace FitAssist

/-- The weekly window built from `oneDayFrame` (a single aggregated week). -/
noncomputable def oneDayWeekly : List WeeklyRow :=
  (build_watchdog_features oneDayFrame 0 Sex.male).toOption.getD []

end FitAssist

/-- C5 witness: the amended abort theorem applied to the one-day frame,
with one healthy registered rule before a rule raising `KeyError`. -/
theorem FitAssist.run_watchdog_rule_error_witness :
    FitAssist.run_watchdog FitAssist.oneDayFrame 0 FitAssist.Sex.male
        ([FitAssist.healthyRule] ++ FitAssist.crashingRule :: [])
      = Except.error (FitAssist.PyErr.other "KeyError") ∧
    (∀ (r2 : FitAssist.Rule) (latest : FitAssist.WeeklyRow)
        (wk : List FitAssist.WeeklyRow),
      r2.full latest wk = Except.error FitAssist.PyErr.typeError →
      FitAssist.evalRule r2 latest wk = r2.bare latest wk) :=
  FitAssist.run_watchdog_rule_error FitAssist.oneDayFrame 0 FitAssist.Sex.male
    FitAssist.oneDayWeekly [FitAssist.healthyRule] FitAssist.crashingRule []
    (FitAssist.PyErr.other "KeyError") rfl
    (by
      intro h
      have hlen : FitAssist.oneDayWeekly.length = 1 := rfl
      rw [h] at hlen
      simp at hlen)
    (by intro h; exact FitAssist.PyErr.noConfusion h)
    (by
      intro r2 hr2
      rw [List.mem_singleton] at hr2
      subst hr2
      exact ⟨some ("MismatchDeficit", "deficit but weight up"), rfl⟩)
    rfl

namespace FitAssist

/-! ## `src/classify/compliance_nb.py` -/

/-- Canonical class order (`compliance_nb.CLASSES`). -/
def CLASSES : List String := ["on_track", "at_risk", "off_track"]

/-- One row of the weekly feature frame built by
`_prepare_weekly_features` (all features defined, because the subset is
`dropna()`-ed before aggregation). -/
structure CWeek where
  week_end_date : ℤ
  mean_net_cal : ℚ
  mean_pa : ℚ
  wt_change : ℚ
deriving DecidableEq, Repr

instance : Inhabited CWeek := ⟨⟨0, 0, 0, 0⟩⟩

/-- One daily row of the `dropna()`-ed
`df[["date", "TrendNetCalories", "TrendActiveCaloriesBurned", "TrendWeight"]]`
subset. -/
structure CRow where
  date : ℤ
  tnc : ℚ
  tacb : ℚ
  tw : ℚ
deriving DecidableEq, Repr

/-- `compliance_nb._ensure_features(df)`: guarantee `TrendNetCalories`,
deriving it from `TrendCaloriesIn - TrendTDEE`, else from
`TrendCaloriesIn - TrendBasalCaloriesBurned - TrendActiveCaloriesBurned`,
else falling back to the constant `0.0` column "so NB still runs". -/
def ensure_features (df : Frame) : Except PyErr Frame :=
  if df.hasCol "TrendNetCalories" then Except.ok df
  else if df.hasCol "TrendTDEE" then
    match df.col! "TrendCaloriesIn", df.col! "TrendTDEE" with
    | Except.ok tci, Except.ok ttdee =>
        Except.ok (df.set "TrendNetCalories" (List.zipWith subQ tci ttdee))
    | Except.error e, _ => Except.error e
    | _, Except.error e => Except.error e
  else if df.hasCol "TrendBasalCaloriesBurned" && df.hasCol "TrendActiveCaloriesBurned" then
    match df.col! "TrendCaloriesIn", df.col! "TrendBasalCaloriesBurned",
        df.col! "TrendActiveCaloriesBurned" with
    | Except.ok tci, Except.ok tbcb, Except.ok tacb =>
        Except.ok (df.set "TrendNetCalories"
          (List.zipWith subQ (List.zipWith subQ tci tbcb) tacb))
    | Except.error e, _, _ => Except.error e
    | _, Except.error e, _ => Except.error e
    | _, _, Except.error e => Except.error e
  else
    Except.ok (df.set "TrendNetCalories" (List.replicate df.dates.length (some 0)))

/-- `compliance_nb._prepare_weekly_features(df)`: ensure the features,
select `date` / `TrendNetCalories` / `TrendActiveCaloriesBurned` /
`TrendWeight`, drop incomplete rows, aggregate per ISO `(year, week)`
(mean net calories, mean active calories, first/last trend weight), sort
by week end date, and derive `wt_change`. -/
def prepare_weekly_features (df0 : Frame) : Except PyErr (List CWeek) :=
  match ensure_features df0 with
  | Except.error e => Except.error e
  | Except.ok df =>
  match df.col! "TrendNetCalories", df.col! "TrendActiveCaloriesBurned",
      df.col! "TrendWeight" with
  | Except.error e, _, _ => Except.error e
  | _, Except.error e, _ => Except.error e
  | _, _, Except.error e => Except.error e
  | Except.ok tnc, Except.ok tacb, Except.ok tw =>
  let subset := (List.range df.dates.length).filterMap (fun i =>
    match tnc.getD i none, tacb.getD i none, tw.getD i none with
    | some a, some b, some c => some (CRow.mk (df.dates.getD i 0) a b c)
    | _, _, _ => none)
  let keys := groupKeys (fun r => isoYearWeek r.date) subset
  let weekly := keys.map (fun k =>
    let grp := subset.filter (fun r => isoYearWeek r.date == k)
    let startW := (grp.map (fun r => r.tw)).headD 0
    let endW := (grp.map (fun r => r.tw)).getLastD 0
    CWeek.mk (maxZ (grp.map (fun r => r.date)))
      ((grp.map (fun r => r.tnc)).sum / (grp.length : ℚ))
      ((grp.map (fun r => r.tacb)).sum / (grp.length : ℚ))
      (endW - startW))
  Except.ok (sortBy (fun a b => a.week_end_date < b.week_end_date) weekly)

/-- The persisted scikit-learn model as `predict_weekly_state` uses it:
its reported class order `classes_`, and the per-row probability vector
`predict_proba` aligned with that order. -/
structure NBModel where
  classes : List String
  proba : ℚ × ℚ × ℚ → List ℚ

/-- Python `dict(zip(keys, vals))[k]` as a partial lookup: with duplicate
keys the last pair wins. -/
def pyDictGet (l : List (String × ℚ)) (c : String) : Option ℚ :=
  (l.reverse.find? (fun p => p.1 == c)).map (fun p => p.2)

/-- Largest element (`[]` gives the junk value 0, never used on `[]`). -/
def maxList : List ℚ → ℚ
  | [] => 0
  | [x] => x
  | x :: y :: xs => max x (maxList (y :: xs))

/-- `np.argmax`: index of the first occurrence of the maximum. -/
def argmaxIdx : List ℚ → ℕ
  | [] => 0
  | [_] => 0
  | x :: y :: xs => if maxList (y :: xs) ≤ x then 0 else argmaxIdx (y :: xs) + 1

/-- The classifier's result dictionary. -/
structure ClassifyResult where
  state : String
  proba : List ℚ
  weeks : ℕ
deriving DecidableEq, Repr

/-- `compliance_nb.predict_weekly_state(df)`: weekly aggregation, the two
`"unknown"` early returns (empty aggregation, fewer than 4 of the last 12
weeks), the `FileNotFoundError` when the pickled model is absent, and
otherwise the last week's probabilities canonicalized to `CLASSES` order
(absent classes padded with 0) with the arg-max state. -/
def predict_weekly_state (model : Option NBModel) (df : Frame) :
    Except PyErr ClassifyResult :=
  match prepare_weekly_features df with
  | Except.error e => Except.error e
  | Except.ok weekly =>
    if weekly.isEmpty then Except.ok ⟨"unknown", [0, 0, 0], 0⟩
    else
      let recent := tailN 12 weekly
      let n := recent.length
      if n < 4 then Except.ok ⟨"unknown", [0, 0, 0], n⟩
      else match model with
        | none => Except.error (PyErr.other "FileNotFoundError: compliance_nb.pkl")
        | some nb =>
          let lastRow := recent.getLast!
          let raw := nb.proba (lastRow.mean_net_cal, lastRow.mean_pa, lastRow.wt_change)
          let d := nb.classes.zip raw
          let proba := CLASSES.map (fun c => (pyDictGet d c).getD 0)
          Except.ok ⟨CLASSES.getD (argmaxIdx proba) "", proba, n⟩

end FitAssist

namespace FitAssist

theorem lookup_none (c : String) :
    ∀ (l : List (String × ℚ)), (∀ x ∈ l, x.1 ≠ c) → l.lookup c = none
  | [], _ => rfl
  | (k, v) :: l, h => by
      have hk : k ≠ c := h (k, v) (List.mem_cons_self _ _)
      have : (c == k) = false := by
        simp [beq_iff_eq]
        exact fun hc => hk hc.symm
      simp only [List.lookup, this]
      exact lookup_none c l (fun x hx => h x (List.mem_cons_of_mem _ hx))

theorem pyDictGet_eq_lookup (c : String) :
    ∀ (l : List (String × ℚ)), (l.map Prod.fst).Nodup →
      pyDictGet l c = l.lookup c
  | [], _ => rfl
  | (k, v) :: l, hnd => by
      have hknotin : ∀ x ∈ l, x.1 ≠ k := by
        intro x hx hxk
        have : k ∈ l.map Prod.fst := by
          rw [← hxk]
          exact List.mem_map_of_mem _ hx
        simp only [List.map_cons, List.nodup_cons] at hnd
        exact hnd.1 this
      have hnd' : (l.map Prod.fst).Nodup := by
        simp only [List.map_cons, List.nodup_cons] at hnd
        exact hnd.2
      unfold pyDictGet
      rw [List.reverse_cons, List.find?_append]
      by_cases hck : c = k
      · subst hck
        have hfl : l.reverse.find? (fun p => p.1 == c) = none := by
          rw [List.find?_eq_none]
          intro x hx
          simp only [beq_iff_eq]
          exact hknotin x (List.mem_reverse.mp hx)
        simp only [hfl, Option.none_or, List.find?]
        simp only [List.lookup, beq_self_eq_true]
        rfl
      · have hlast : ([((k : String), v)].find? (fun p => p.1 == c)) = none := by
          rw [List.find?_eq_none]
          intro x hx
          simp only [List.mem_singleton] at hx
          subst hx
          simp only [beq_iff_eq]
          exact fun h => hck h.symm
        rw [hlast]
        have : (c == k) = false := by
          simp [beq_iff_eq, hck]
        simp only [List.lookup, this, Option.or_none]
        exact pyDictGet_eq_lookup c l hnd'

theorem pad_sum :
    ∀ (d : List (String × ℚ)), (d.map Prod.fst).Nodup →
      (∀ k ∈ d.map Prod.fst, k ∈ CLASSES) →
      (CLASSES.map (fun c => (d.lookup c).getD 0)).sum = (d.map Prod.snd).sum
  | [], _, _ => by simp [CLASSES]
  | (k, v) :: d, hnd, hsub => by
      have hknotin : ∀ x ∈ d, x.1 ≠ k := by
        intro x hx hxk
        simp only [List.map_cons, List.nodup_cons] at hnd
        exact hnd.1 (hxk ▸ List.mem_map_of_mem _ hx)
      have hnd' : (d.map Prod.fst).Nodup := by
        simp only [List.map_cons, List.nodup_cons] at hnd
        exact hnd.2
      have hsub' : ∀ c ∈ d.map Prod.fst, c ∈ CLASSES := by
        intro c hc
        exact hsub c (by simp [hc])
      have ih := pad_sum d hnd' hsub'
      have hk : k ∈ CLASSES := hsub k (by simp)
      have hdk : d.lookup k = none := lookup_none k d hknotin
      have hcons : ∀ c : String, (((k, v) :: d).lookup c)
          = if c = k then some v else d.lookup c := by
        intro c
        by_cases hc : c = k
        · subst hc
          simp [List.lookup]
        · have : (c == k) = false := by simp [beq_iff_eq, hc]
          simp [List.lookup, this, hc]
      simp only [CLASSES, List.map_cons, List.map_nil, List.sum_cons, List.sum_nil] at ih ⊢
      rw [hcons "on_track", hcons "at_risk", hcons "off_track"]
      simp only [CLASSES, List.mem_cons, List.mem_singleton, List.not_mem_nil, or_false] at hk
      rcases hk with hk | hk | hk
      all_goals subst hk
      · rw [if_pos rfl, if_neg (by decide), if_neg (by decide)]
        rw [hdk] at ih
        simp only [Option.getD_none] at ih
        simp only [Option.getD_some]
        linarith [ih]
      · rw [if_neg (by decide), if_pos rfl, if_neg (by decide)]
        rw [hdk] at ih
        simp only [Option.getD_none] at ih
        simp only [Option.getD_some]
        linarith [ih]
      · rw [if_neg (by decide), if_neg (by decide), if_pos rfl]
        rw [hdk] at ih
        simp only [Option.getD_none] at ih
        simp only [Option.getD_some]
        linarith [ih]

theorem pyDictGet_none (c : String) (d : List (String × ℚ))
    (h : ∀ x ∈ d, x.1 ≠ c) : pyDictGet d c = none := by
  unfold pyDictGet
  have : d.reverse.find? (fun p => p.1 == c) = none := by
    rw [List.find?_eq_none]
    intro x hx
    simp only [beq_iff_eq]
    exact h x (List.mem_reverse.mp hx)
  rw [this]
  rfl

theorem argmaxIdx_lt : ∀ (l : List ℚ), l ≠ [] → argmaxIdx l < l.length
  | [], h => absurd rfl h
  | [x], _ => by simp [argmaxIdx]
  | x :: y :: xs, _ => by
      unfold argmaxIdx
      by_cases hc : maxList (y :: xs) ≤ x
      · simp [hc]
      · have ih := argmaxIdx_lt (y :: xs) (by simp)
        simp only [hc, if_false, List.length_cons]
        simp only [List.length_cons] at ih
        omega

theorem getD_CLASSES (i : ℕ) (hi : i < 3) :
    CLASSES.getD i "" ∈ CLASSES ∧ CLASSES.getD i "" ≠ "unknown" := by
  interval_cases i <;> simp [CLASSES]

theorem tailN_length {α : Type} (n : ℕ) (l : List α) :
    (tailN n l).length = min n l.length := by
  simp [tailN]
  omega

end FitAssist

/-- C3: `predict_weekly_state` returns its probabilities in the fixed
(on_track, at_risk, off_track) order regardless of the order the persisted
model reports classes in, padding absent classes with 0; when the state is
not "unknown" the three probabilities sum to exactly 1 (so certainly within
1e-6 of 1.0), and when it is "unknown" the list is exactly [0, 0, 0].
Hypotheses record scikit-learn's contract for the persisted model: distinct
classes drawn from the training labels (which `train_compliance_nb.label_week`
draws from `CLASSES`), and one probability per class summing to 1. -/
theorem FitAssist.predict_proba_canonical (m : FitAssist.NBModel)
    (hnd : m.classes.Nodup)
    (hsub : ∀ c ∈ m.classes, c ∈ FitAssist.CLASSES)
    (hlen : ∀ x, (m.proba x).length = m.classes.length)
    (hsum : ∀ x, (m.proba x).sum = 1)
    (df : FitAssist.Frame) (res : FitAssist.ClassifyResult)
    (hok : FitAssist.predict_weekly_state (some m) df = Except.ok res) :
    (res.state = "unknown" → res.proba = [0, 0, 0]) ∧
    (res.state ≠ "unknown" →
      res.state ∈ FitAssist.CLASSES ∧
      res.proba.sum = 1 ∧ |res.proba.sum - 1| ≤ 1 / 1000000 ∧
      ∃ x, res.proba = FitAssist.CLASSES.map
          (fun c => (FitAssist.pyDictGet (m.classes.zip (m.proba x)) c).getD 0) ∧
        ∀ c, c ∉ m.classes →
          (FitAssist.pyDictGet (m.classes.zip (m.proba x)) c).getD 0 = 0) := by
  simp only [FitAssist.predict_weekly_state] at hok
  split at hok
  · exact Except.noConfusion hok
  · rename_i weekly heq
    split at hok
    · have hres := Except.ok.inj hok
      subst hres
      exact ⟨fun _ => rfl, fun hne => absurd rfl hne⟩
    · split at hok
      · have hres := Except.ok.inj hok
        subst hres
        exact ⟨fun _ => rfl, fun hne => absurd rfl hne⟩
      · have hres := Except.ok.inj hok
        subst hres
        -- notation for the feature triple and the dict of the final branch
        set X := ((FitAssist.tailN 12 weekly).getLast!.mean_net_cal,
          (FitAssist.tailN 12 weekly).getLast!.mean_pa,
          (FitAssist.tailN 12 weekly).getLast!.wt_change) with hX
        set d := m.classes.zip (m.proba X) with hd
        have hkeys : d.map Prod.fst = m.classes := by
          rw [hd]
          exact List.map_fst_zip _ _ (le_of_eq (hlen X).symm)
        have hvals : d.map Prod.snd = m.proba X := by
          rw [hd]
          exact List.map_snd_zip _ _ (le_of_eq (hlen X))
        have hkeysnd : (d.map Prod.fst).Nodup := by rw [hkeys]; exact hnd
        have hkeyssub : ∀ k ∈ d.map Prod.fst, k ∈ FitAssist.CLASSES := by
          rw [hkeys]; exact hsub
        have hsum3 : (FitAssist.CLASSES.map
            (fun c => (FitAssist.pyDictGet d c).getD 0)).sum = 1 := by
          have hcongr : FitAssist.CLASSES.map
              (fun c => (FitAssist.pyDictGet d c).getD 0)
              = FitAssist.CLASSES.map (fun c => (d.lookup c).getD 0) := by
            simp only [FitAssist.CLASSES, List.map_cons, List.map_nil]
            rw [FitAssist.pyDictGet_eq_lookup _ _ hkeysnd,
              FitAssist.pyDictGet_eq_lookup _ _ hkeysnd,
              FitAssist.pyDictGet_eq_lookup _ _ hkeysnd]
          rw [hcongr, FitAssist.pad_sum d hkeysnd hkeyssub, hvals]
          exact hsum X
        have hproba3 : (FitAssist.CLASSES.map
            (fun c => (FitAssist.pyDictGet d c).getD 0)).length = 3 := by
          simp [FitAssist.CLASSES]
        have hlt : FitAssist.argmaxIdx (FitAssist.CLASSES.map
            (fun c => (FitAssist.pyDictGet d c).getD 0)) < 3 := by
          have hne : (FitAssist.CLASSES.map
              (fun c => (FitAssist.pyDictGet d c).getD 0)) ≠ [] := by
            intro h
            rw [h] at hproba3
            simp at hproba3
          have := FitAssist.argmaxIdx_lt _ hne
          rw [hproba3] at this
          exact this
        have hget := FitAssist.getD_CLASSES _ hlt
        constructor
        · intro h
          exact absurd h hget.2
        · intro _
          refine ⟨hget.1, hsum3, ?_, X, rfl, ?_⟩
          · rw [hsum3]
            norm_num
          · intro c hc
            have hnonec : FitAssist.pyDictGet d c = none := by
              refine FitAssist.pyDictGet_none c d ?_
              intro x hx hxc
              have : x.1 ∈ d.map Prod.fst := List.mem_map_of_mem _ hx
              rw [hkeys] at this
              exact hc (hxc ▸ this)
            rw [hnonec]
            rfl

/-- C8: when the daily frame aggregates to fewer than 4 non-empty ISO weeks,
`predict_weekly_state` returns state "unknown" together with the number of
weeks considered; with at least 4 aggregated weeks (and the persisted model
present), it returns a defined state drawn from (on_track, at_risk,
off_track). -/
theorem FitAssist.predict_weeks_boundary (m : FitAssist.NBModel)
    (df : FitAssist.Frame) (ws : List FitAssist.CWeek)
    (res : FitAssist.ClassifyResult)
    (hprep : FitAssist.prepare_weekly_features df = Except.ok ws)
    (hok : FitAssist.predict_weekly_state (some m) df = Except.ok res) :
    (ws.length < 4 → res.state = "unknown" ∧ res.weeks = min 12 ws.length) ∧
    (4 ≤ ws.length → res.state ∈ FitAssist.CLASSES ∧ res.state ≠ "unknown") := by
  simp only [FitAssist.predict_weekly_state, hprep] at hok
  constructor
  · intro h4
    by_cases hemp : ws.isEmpty = true
    · rw [if_pos hemp] at hok
      have hres := Except.ok.inj hok
      subst hres
      have hnil : ws = [] := by
        cases ws with
        | nil => rfl
        | cons a l => simp [List.isEmpty] at hemp
      refine ⟨rfl, ?_⟩
      rw [hnil]
      rfl
    · rw [if_neg hemp] at hok
      have htl : (FitAssist.tailN 12 ws).length < 4 := by
        rw [FitAssist.tailN_length]
        omega
      rw [if_pos htl] at hok
      have hres := Except.ok.inj hok
      subst hres
      refine ⟨rfl, ?_⟩
      show (FitAssist.tailN 12 ws).length = min 12 ws.length
      exact FitAssist.tailN_length 12 ws
  · intro h4
    have hemp : ¬(ws.isEmpty = true) := by
      cases ws with
      | nil => simp at h4
      | cons a l => simp [List.isEmpty]
    rw [if_neg hemp] at hok
    have htl : ¬((FitAssist.tailN 12 ws).length < 4) := by
      rw [FitAssist.tailN_length]
      omega
    rw [if_neg htl] at hok
    have hres := Except.ok.inj hok
    subst hres
    have hproba3 : (FitAssist.CLASSES.map (fun c =>
        (FitAssist.pyDictGet
          (m.classes.zip (m.proba ((FitAssist.tailN 12 ws).getLast!.mean_net_cal,
            (FitAssist.tailN 12 ws).getLast!.mean_pa,
            (FitAssist.tailN 12 ws).getLast!.wt_change))) c).getD 0)).length = 3 := by
      simp [FitAssist.CLASSES]
    have hne : (FitAssist.CLASSES.map (fun c =>
        (FitAssist.pyDictGet
          (m.classes.zip (m.proba ((FitAssist.tailN 12 ws).getLast!.mean_net_cal,
            (FitAssist.tailN 12 ws).getLast!.mean_pa,
            (FitAssist.tailN 12 ws).getLast!.wt_change))) c).getD 0)) ≠ [] := by
      intro h
      rw [h] at hproba3
      simp at hproba3
    have hlt := FitAssist.argmaxIdx_lt _ hne
    rw [hproba3] at hlt
    have hget := FitAssist.getD_CLASSES _ hlt
    exact ⟨hget.1, hget.2⟩

namespace FitAssist

/-- A persisted model that reports its classes in scrambled order
("off_track" first) and omits "at_risk" entirely, always predicting
probability 1 for "on_track". -/
def testModel : NBModel := ⟨["off_track", "on_track"], fun _ => [0, 1]⟩

/-- Four Mondays in consecutive ISO weeks (2024-W01 … 2024-W04) with all
three classifier feature columns populated. -/
def fourWeekFrame : Frame :=
  ⟨[19723, 19730, 19737, 19744],
   [("TrendNetCalories", [some (-100), some (-120), some (-80), some (-90)]),
    ("TrendActiveCaloriesBurned", [some 400, some 380, some 420, some 410]),
    ("TrendWeight", [some 80, some 79, some 79, some 78])]⟩

/-- Three Mondays in consecutive ISO weeks (2024-W01 … 2024-W03). -/
def threeWeekFrame : Frame :=
  ⟨[19723, 19730, 19737],
   [("TrendNetCalories", [some (-100), some (-120), some (-80)]),
    ("TrendActiveCaloriesBurned", [some 400, some 380, some 420]),
    ("TrendWeight", [some 80, some 79, some 79])]⟩

/-- The classifier's result on the four-week frame. -/
def fourWeekRes : ClassifyResult :=
  (predict_weekly_state (some testModel) fourWeekFrame).toOption.getD ⟨"", [], 0⟩

/-- The weekly aggregation of the three-week frame. -/
def threeWeekWs : List CWeek :=
  (prepare_weekly_features threeWeekFrame).toOption.getD []

/-- The classifier's result on the three-week frame. -/
def threeWeekRes : ClassifyResult :=
  (predict_weekly_state (some testModel) threeWeekFrame).toOption.getD ⟨"", [], 0⟩

end FitAssist

/-- C3 witness: the canonicalization theorem applied to a model whose class
order is scrambled and misses "at_risk", on a four-week frame; the
resulting state is "on_track" with canonical probabilities [1, 0, 0]. -/
theorem FitAssist.predict_proba_canonical_witness :
    ((FitAssist.fourWeekRes.state = "unknown" →
        FitAssist.fourWeekRes.proba = [0, 0, 0]) ∧
      (FitAssist.fourWeekRes.state ≠ "unknown" →
        FitAssist.fourWeekRes.state ∈ FitAssist.CLASSES ∧
        FitAssist.fourWeekRes.proba.sum = 1 ∧
        |FitAssist.fourWeekRes.proba.sum - 1| ≤ 1 / 1000000 ∧
        ∃ x, FitAssist.fourWeekRes.proba = FitAssist.CLASSES.map
            (fun c => (FitAssist.pyDictGet
              (FitAssist.testModel.classes.zip (FitAssist.testModel.proba x)) c).getD 0) ∧
          ∀ c, c ∉ FitAssist.testModel.classes →
            (FitAssist.pyDictGet
              (FitAssist.testModel.classes.zip (FitAssist.testModel.proba x)) c).getD 0
              = 0)) ∧
    FitAssist.fourWeekRes.state = "on_track" :=
  ⟨FitAssist.predict_proba_canonical FitAssist.testModel (by decide) (by decide)
      (fun _ => rfl) (fun _ => by simp [FitAssist.testModel])
      FitAssist.fourWeekFrame FitAssist.fourWeekRes rfl,
   rfl⟩

/-- C8 witness: the boundary theorem applied to a three-week frame —
exactly 3 aggregated weeks give state "unknown" with `weeks = 3` — and to
a four-week frame, where the state is a defined class. -/
theorem FitAssist.predict_weeks_boundary_witness :
    FitAssist.threeWeekWs.length = 3 ∧
    (FitAssist.threeWeekRes.state = "unknown" ∧
      FitAssist.threeWeekRes.weeks = min 12 FitAssist.threeWeekWs.length) ∧
    (FitAssist.fourWeekRes.state ∈ FitAssist.CLASSES ∧
      FitAssist.fourWeekRes.state ≠ "unknown") :=
  ⟨rfl,
   (FitAssist.predict_weeks_boundary FitAssist.testModel FitAssist.threeWeekFrame
      FitAssist.threeWeekWs FitAssist.threeWeekRes rfl rfl).1 (by decide),
   (FitAssist.predict_weeks_boundary FitAssist.testModel FitAssist.fourWeekFrame
      ((FitAssist.prepare_weekly_features FitAssist.fourWeekFrame).toOption.getD [])
      FitAssist.fourWeekRes rfl rfl).2 (by decide)⟩

namespace FitAssist

theorem get?_set_new (df : Frame) (name : String) (col : List (Option ℚ))
    (h : df.hasCol name = false) : (df.set name col).get? name = some col := by
  unfold Frame.set
  rw [if_neg (by simp [h])]
  unfold Frame.get?
  have hfind : df.cols.find? (fun c => c.1 == name) = none := by
    rw [List.find?_eq_none]
    intro x hx
    unfold Frame.hasCol at h
    rw [List.any_eq_false] at h
    exact fun hb => (h x hx) hb
  show ((df.cols ++ [(name, col)]).find? (fun c => c.1 == name)).map (fun c => c.2)
      = some col
  rw [List.find?_append, hfind]
  simp

theorem mem_insertBy {α : Type} (lt : α → α → Bool) (a x : α) :
    ∀ (l : List α), x ∈ insertBy lt a l ↔ x = a ∨ x ∈ l
  | [] => by simp [insertBy]
  | y :: ys => by
      unfold insertBy
      by_cases hc : lt a y = true
      · simp [hc]
      · rw [if_neg hc]
        simp only [List.mem_cons, mem_insertBy lt a x ys]
        tauto

theorem mem_sortBy {α : Type} (lt : α → α → Bool) (x : α) :
    ∀ (l : List α), x ∈ sortBy lt l ↔ x ∈ l
  | [] => Iff.rfl
  | y :: ys => by
      show x ∈ insertBy lt y (sortBy lt ys) ↔ _
      rw [mem_insertBy, mem_sortBy lt x ys]
      simp

theorem getD_replicate_lt {α : Type} (a d : α) :
    ∀ (n i : ℕ), i < n → (List.replicate n a).getD i d = a
  | 0, _, h => absurd h (by omega)
  | n + 1, 0, _ => rfl
  | n + 1, i + 1, h => by
      show (List.replicate n a).getD i d = a
      exact getD_replicate_lt a d n i (by omega)

theorem hasCol_of_get? (df : Frame) (name : String) (col : List (Option ℚ))
    (h : df.get? name = some col) : df.hasCol name = true := by
  unfold Frame.get? at h
  unfold Frame.hasCol
  cases hf : df.cols.find? (fun c => c.1 == name) with
  | none => rw [hf] at h; exact Option.noConfusion h
  | some c =>
      rw [List.any_eq_true]
      have hmem := List.mem_of_find?_eq_some hf
      have hp := List.find?_some hf
      exact ⟨c, hmem, hp⟩

/-- Mean of a group whose net-calorie entries are all zero. -/
theorem group_mean_zero (grp : List CRow) (h : ∀ r ∈ grp, r.tnc = 0) :
    ((grp.map (fun r => r.tnc)).sum / ((grp.length : ℕ) : ℚ)) = 0 := by
  have hsum : (grp.map (fun r => r.tnc)).sum = 0 := by
    apply List.sum_eq_zero
    intro v hv
    obtain ⟨r, hr, rfl⟩ := List.mem_map.mp hv
    exact h r hr
  rw [hsum]
  exact zero_div _

/-- Weekly net-calorie means are all zero when the `TrendNetCalories`
column is the fabricated all-zero column. -/
theorem prepare_mean_zero (df : Frame)
    (hcol : df.get? "TrendNetCalories"
      = some (List.replicate df.dates.length (some 0))) :
    ∀ ws, prepare_weekly_features df = Except.ok ws →
      ∀ w ∈ ws, w.mean_net_cal = 0 := by
  intro ws hws w hw
  unfold prepare_weekly_features at hws
  have hens : ensure_features df = Except.ok df := by
    unfold ensure_features
    rw [if_pos (hasCol_of_get? df _ _ hcol)]
  have htnc : df.col! "TrendNetCalories"
      = Except.ok (List.replicate df.dates.length (some 0)) := by
    unfold Frame.col!
    rw [hcol]
  simp only [hens] at hws
  cases hacb : df.col! "TrendActiveCaloriesBurned" with
  | error e =>
      simp only [htnc, hacb] at hws
      exact Except.noConfusion hws
  | ok tacb =>
  cases htw : df.col! "TrendWeight" with
  | error e =>
      simp only [htnc, hacb, htw] at hws
      exact Except.noConfusion hws
  | ok tw =>
  simp only [htnc, hacb, htw] at hws
  have hws' := Except.ok.inj hws
  subst hws'
  rw [mem_sortBy] at hw
  obtain ⟨k, hk, rfl⟩ := List.mem_map.mp hw
  have hzero : ∀ r ∈ (List.range df.dates.length).filterMap (fun i =>
      match (List.replicate df.dates.length ((some 0 : Option ℚ))).getD i none,
        tacb.getD i none, tw.getD i none with
      | some a, some b, some c => some (CRow.mk (df.dates.getD i 0) a b c)
      | _, _, _ => none), r.tnc = 0 := by
    intro r hr
    obtain ⟨i, hi, heq⟩ := List.mem_filterMap.mp hr
    have hlt : i < df.dates.length := List.mem_range.mp hi
    rw [getD_replicate_lt _ _ _ _ hlt] at heq
    cases hb : tacb.getD i none with
    | none => rw [hb] at heq; exact Option.noConfusion heq
    | some b =>
      cases hc : tw.getD i none with
      | none => rw [hb, hc] at heq; exact Option.noConfusion heq
      | some c =>
        rw [hb, hc] at heq
        have heq' := Option.some.inj heq
        rw [← heq']
  exact group_mean_zero _ (fun r hr => hzero r (List.mem_of_mem_filter hr))

end FitAssist

/-- C7 (amended): when neither `TrendNetCalories`, `TrendTDEE`, nor the
basal+active burned trend columns exist, `_ensure_features` does not fail
with a missing-column error — it fabricates `TrendNetCalories` as 0.0 for
every row ("so NB still runs"), and consequently every aggregated week's
net-calorie feature used for classification is exactly 0. -/
theorem FitAssist.ensure_features_zero_fallback (df : FitAssist.Frame)
    (h1 : df.hasCol "TrendNetCalories" = false)
    (h2 : df.hasCol "TrendTDEE" = false)
    (h3 : (df.hasCol "TrendBasalCaloriesBurned"
      && df.hasCol "TrendActiveCaloriesBurned") = false) :
    FitAssist.ensure_features df = Except.ok (df.set "TrendNetCalories"
      (List.replicate df.dates.length (some 0))) ∧
    (∀ ws, FitAssist.prepare_weekly_features df = Except.ok ws →
      ∀ w ∈ ws, w.mean_net_cal = 0) := by
  have hens : FitAssist.ensure_features df = Except.ok (df.set "TrendNetCalories"
      (List.replicate df.dates.length (some 0))) := by
    unfold FitAssist.ensure_features
    rw [if_neg (by simp [h1]), if_neg (by simp [h2]), if_neg (by simp [h3])]
  refine ⟨hens, ?_⟩
  intro ws hws w hw
  have hget : (df.set "TrendNetCalories"
      (List.replicate df.dates.length (some 0))).get? "TrendNetCalories"
      = some (List.replicate df.dates.length (some 0)) :=
    FitAssist.get?_set_new df _ _ h1
  have hdz : (df.set "TrendNetCalories"
      (List.replicate df.dates.length (some 0))).dates = df.dates := by
    unfold FitAssist.Frame.set
    split <;> rfl
  have hens2 : FitAssist.ensure_features (df.set "TrendNetCalories"
      (List.replicate df.dates.length (some 0)))
      = Except.ok (df.set "TrendNetCalories"
        (List.replicate df.dates.length (some 0))) := by
    unfold FitAssist.ensure_features
    rw [if_pos (FitAssist.hasCol_of_get? _ _ _ hget)]
  have hre : FitAssist.prepare_weekly_features (df.set "TrendNetCalories"
      (List.replicate df.dates.length (some 0))) = Except.ok ws := by
    unfold FitAssist.prepare_weekly_features at hws ⊢
    simp only [hens] at hws
    simp only [hens2]
    exact hws
  have hget' : (df.set "TrendNetCalories"
      (List.replicate df.dates.length (some 0))).get? "TrendNetCalories"
      = some (List.replicate (df.set "TrendNetCalories"
        (List.replicate df.dates.length (some 0))).dates.length (some 0)) := by
    rw [hdz]
    exact hget
  exact FitAssist.prepare_mean_zero _ hget' ws hre w hw

namespace FitAssist

/-- A daily frame with no net-calories, TDEE, or calorie-burn trend columns
at all (only activity and weight). -/
def noCaloriesFrame : Frame :=
  ⟨[19723, 19730],
   [("TrendActiveCaloriesBurned", [some 400, some 380]),
    ("TrendWeight", [some 80, some 79])]⟩

end FitAssist

/-- C7 counterexample: with neither `TrendNetCalories`, `TrendTDEE`, nor the
basal/active burned trend columns present, `_ensure_features` fabricates a
`TrendNetCalories` column equal to 0.0 on every row instead of failing, and
both the weekly feature preparation and the classifier proceed without a
missing-column error. -/
theorem FitAssist.ensure_features_fabricates_zero :
    FitAssist.ensure_features FitAssist.noCaloriesFrame = Except.ok
      ⟨[19723, 19730],
       [("TrendActiveCaloriesBurned", [some 400, some 380]),
        ("TrendWeight", [some 80, some 79]),
        ("TrendNetCalories", [some 0, some 0])]⟩ ∧
    (FitAssist.prepare_weekly_features FitAssist.noCaloriesFrame).toOption.isSome
      = true ∧
    (FitAssist.predict_weekly_state (some FitAssist.testModel)
      FitAssist.noCaloriesFrame).toOption.isSome = true :=
  ⟨rfl, rfl, rfl⟩

/-- C7 witness: the zero-fallback theorem applied to the concrete frame
missing all three column groups. -/
theorem FitAssist.ensure_features_zero_fallback_witness :
    FitAssist.ensure_features FitAssist.noCaloriesFrame = Except.ok
      (FitAssist.noCaloriesFrame.set "TrendNetCalories"
        (List.replicate FitAssist.noCaloriesFrame.dates.length (some 0))) ∧
    (∀ ws, FitAssist.prepare_weekly_features FitAssist.noCaloriesFrame
        = Except.ok ws → ∀ w ∈ ws, w.mean_net_cal = 0) :=
  FitAssist.ensure_features_zero_fallback FitAssist.noCaloriesFrame rfl rfl rfl

namespace FitAssist

/-! ## `src/predict/forecast_metric.py`

The XGBoost regressor is an external collaborator: the fitted model object
is whatever `XGBRegressor().fit(X, y)` returns, so the embedding takes the
training function as a parameter `fit` mapping the design matrix and the
labels to a predictor (which, like XGBoost, accepts `NaN` feature values).
Everything deterministic — sorting, the calorie floor, derived columns,
the window delta, correlation-based feature selection, rolling means,
alignment, and the prediction loop with metabolic-adaptation damping — is
embedded from the source. -/

/-- Python `str.startswith(pre)` (via the character lists, so that it
evaluates by kernel reduction). -/
def strStartsWith (s pre : String) : Bool :=
  pre.data.isPrefixOf s.data

/-- `df.sort_values("date")`: reorder all rows by ascending date. -/
def Frame.sortByDate (f : Frame) : Frame :=
  let perm := sortBy (fun i j => f.dates.getD i 0 < f.dates.getD j 0)
    (List.range f.dates.length)
  ⟨perm.map (fun i => f.dates.getD i 0),
   f.cols.map (fun c => (c.1, perm.map (fun i => c.2.getD i none)))⟩

/-- `NaN`-propagating product of two cells. -/
def mulCell : Option ℚ → Option ℚ → Option ℚ
  | some a, some b => some (a * b)
  | _, _ => none

/-- `s.rolling(w).mean()` with the default `min_periods = w`. -/
def rollingMeanQ (w : ℕ) (cells : List (Option ℚ)) : List (Option ℚ) :=
  (List.range cells.length).map (fun i =>
    let v := ((cells.take (i + 1)).drop (i + 1 - w)).filterMap id
    if w ≤ v.length then some (v.sum / (v.length : ℚ)) else none)

/-- `s.shift(1)`: yesterday's value, `NaN` on the first row. -/
def shiftOne (cells : List (Option ℚ)) : List (Option ℚ) :=
  (List.range cells.length).map (fun i =>
    if i = 0 then none else cells.getD (i - 1) none)

/-- The Pearson-correlation sort key of a candidate column against the
delta target over pairwise-complete rows: `|r|²` as an exact fraction
`(n·Σxy − Σx·Σy)² / ((n·Σxx − Σx²)·(n·Σyy − Σy²))`, `none` (pandas `NaN`)
when a variance is zero or fewer than two complete pairs exist. -/
def corrKey (xs ys : List (Option ℚ)) : Option (ℚ × ℚ) :=
  let pairs := (List.zipWith (fun a b => (a, b)) xs ys).filterMap (fun p =>
    match p.1, p.2 with
    | some a, some b => some (a, b)
    | _, _ => none)
  let n : ℚ := pairs.length
  let sx := (pairs.map (fun p => p.1)).sum
  let sy := (pairs.map (fun p => p.2)).sum
  let covxy := n * (pairs.map (fun p => p.1 * p.2)).sum - sx * sy
  let varx := n * (pairs.map (fun p => p.1 * p.1)).sum - sx * sx
  let vary := n * (pairs.map (fun p => p.2 * p.2)).sum - sy * sy
  if varx * vary = 0 then none else some (covxy * covxy, varx * vary)

/-- `corr_series.abs().sort_values(ascending=False)` comparison: strictly
larger `|r|` first, `NaN` correlations last. -/
def absCorrGt : Option (ℚ × ℚ) → Option (ℚ × ℚ) → Bool
  | some (n1, d1), some (n2, d2) => n2 * d1 < n1 * d2
  | some _, none => true
  | none, _ => false

/-- `forecast_metric.estimate_rmr_adaptation`: relative RMR drop clamped
to [0, 1]. -/
noncomputable def estimate_rmr_adaptation (weight_start age_start weight_now age_now : ℝ)
    (sex : Sex) : ℝ :=
  max 0 (min (1 - calculate_rmr weight_now age_now sex
    / calculate_rmr weight_start age_start sex) 1)

/-- Everything `forecast_metric` computes before the regressor is fitted
(STEPs 1-5 of forecast_metric.py): the extended frame, the trend/delta
series, the selected features, the rolling-mean feature columns, the
`Recent` column, and the aligned row indices that survive
`features.dropna().join(target.dropna(), how="inner")`. -/
def forecast_prep (df0 : Frame) (target : String) (dob : ℤ)
    (window : ℕ := 21) (top_n_features : ℕ := 5) :
    Except PyErr (Frame × List (Option ℚ) × List (Option ℚ) × List String
      × List (String × List (Option ℚ)) × List (Option ℚ) × List ℕ × List ℚ
      × List (Option ℚ)) :=
  let df1 := df0.sortByDate
  let trend_target := "Trend" ++ target
  let delta_target := trend_target ++ "_Delta"
  if df1.hasCol trend_target = false then
    Except.error (PyErr.other ("ValueError: Missing trend column: " ++ trend_target))
  else
  match df1.col! "TrendCaloriesIn" with
  | Except.error e => Except.error e
  | Except.ok tci0 =>
  let df2 := df1.set "TrendCaloriesIn"
    (tci0.map (fun c => c.map (fun v => max v 1200)))
  match df2.col! "TrendWeight", df2.col! "TrendBodyFatPercentage" with
  | Except.error e, _ => Except.error e
  | _, Except.error e => Except.error e
  | Except.ok tw, Except.ok tbfp =>
  let df3 := df2.set "TrendFatMass" (List.zipWith mulCell tw tbfp)
  let df4 := df3.set "TrendLeanBodyMass"
    (List.zipWith (fun w b =>
      match w, b with
      | some wv, some bv => some (wv * (1 - bv))
      | _, _ => none) tw tbfp)
  let ages := df4.dates.map (fun d => calculate_age dob d)
  let trendT := (df4.get? trend_target).getD []
  let delta0 := (List.range trendT.length).map (fun i =>
    if i < window then none
    else match trendT.getD i none, trendT.getD (i - window) none with
      | some a, some b => some (a - b)
      | _, _ => none)
  let delta := if target == "BodyFatPercentage" then
      delta0.map (fun c => c.map (fun v => v * 100))
    else delta0
  let df5 := df4.set delta_target delta
  let exclude := if target == "BodyFatPercentage" then
      ["TrendNetCalories", "TrendTDEE", "TrendLeanBodyMass", "TrendFatMass",
       "TrendWeight"]
    else ["TrendNetCalories", "TrendTDEE", "TrendLeanBodyMass"]
  let candidates := (df5.cols.map (fun c => c.1)).filter (fun c =>
    strStartsWith c "Trend" && !(c == trend_target) && !(c == delta_target)
      && !(exclude.contains c))
  let scored := candidates.map (fun c => (c, corrKey ((df5.get? c).getD []) delta))
  let top_features := ((sortBy (fun a b => absCorrGt a.2 b.2) scored).map
    (fun p => p.1)).take top_n_features
  let df6 := top_features.foldl (fun acc c =>
    (acc.set (c ++ "_30d") (rollingMeanQ 30 ((acc.get? c).getD []))).set
      (c ++ "_60d") (rollingMeanQ 60 ((acc.get? c).getD []))) df5
  let extended := top_features ++ top_features.map (fun c => c ++ "_30d")
    ++ top_features.map (fun c => c ++ "_60d")
  let featureCols := extended.map (fun c =>
    (c, rollingMeanQ window ((df6.get? c).getD [])))
  let recentCol := shiftOne trendT
  let alignedIdx := (List.range df6.dates.length).filter (fun i =>
    (featureCols.all (fun c => (c.2.getD i none).isSome))
      && (recentCol.getD i none).isSome && (delta.getD i none).isSome)
  Except.ok (df6, trendT, delta, top_features, featureCols, recentCol,
    alignedIdx, ages, tw)

/-- `forecast_metric(df, target_metric, forecast_days, dob, sex, window,
top_n_features)`: the deterministic pipeline (`forecast_prep`), the
externally fitted regressor, the in-sample R², and the prediction loop
with horizon scaling, metabolic-adaptation damping for weight-mass
targets, and the body-fat clamp.  A prediction is `Option ℝ` because a
`NaN` current trend value propagates to a `NaN` float prediction. -/
noncomputable def forecast_metric
    (fit : List (List ℚ) → List ℚ → (List (Option ℚ) → ℚ))
    (df0 : Frame) (target : String) (forecast_days : List ℕ) (dob : ℤ)
    (sex : Sex) (window : ℕ := 21) (top_n_features : ℕ := 5) :
    Except PyErr (List (ℕ × Option ℝ) × List String × ℚ) :=
  match forecast_prep df0 target dob window top_n_features with
  | Except.error e => Except.error e
  | Except.ok (df6, trendT, delta, top_features, featureCols, recentCol,
      alignedIdx, ages, tw) =>
  let X := alignedIdx.map (fun i =>
    top_features.map (fun c => (((featureCols.lookup c).getD []).getD i none).getD 0)
      ++ [(recentCol.getD i none).getD 0])
  let y := alignedIdx.map (fun i => (delta.getD i none).getD 0)
  let model := fit X y
  let y_pred := X.map (fun r => model (r.map some))
  let ymean := y.sum / (y.length : ℚ)
  let r2 := 1 - ((List.zipWith (fun a b => (a - b) * (a - b)) y y_pred).sum)
    / ((y.map (fun v => (v - ymean) * (v - ymean))).sum)
  let n := df6.dates.length
  if n < 2 then Except.error (PyErr.other "IndexError")
  else
  match tw.filterMap id with
  | [] => Except.error
      (PyErr.other "ValueError: attempt to get argmax of an empty sequence")
  | w0 :: wrest =>
  let peakW := wrest.foldl max w0
  let peak_idx := tw.findIdx (fun c => c == some peakW)
  let peak_age := ages.getD peak_idx 0
  let current := trendT.getD (n - 1) none
  let last_date := df6.dates.getD (n - 1) 0
  let X_latest := top_features.map (fun c =>
      ((featureCols.lookup c).getD []).getD (n - 1) none)
    ++ [trendT.getD (n - 2) none]
  let predictions := forecast_days.map (fun (d : ℕ) =>
    let sim_age : ℚ := calculate_age dob (last_date + (d : ℤ))
    let scaled : ℚ := model X_latest * (d : ℚ) / (window : ℚ)
    if target == "Weight" || target == "FatMass" || target == "LeanBodyMass" then
      match current with
      | some cv =>
        let adaptation := estimate_rmr_adaptation ((peakW : ℚ) : ℝ)
          ((peak_age : ℚ) : ℝ) (((cv + scaled : ℚ) : ℝ)) ((sim_age : ℚ) : ℝ) sex
        (d, some (((cv : ℚ) : ℝ) + ((scaled : ℚ) : ℝ) * (1 - adaptation)))
      | none => (d, (none : Option ℝ))
    else
      match current with
      | some cv =>
        let fv : ℝ := ((cv + scaled : ℚ) : ℝ)
        (d, some (if target == "BodyFatPercentage" then min (max fv 0.03) 0.60
          else fv))
      | none => (d, none))
  Except.ok (predictions, top_features, r2)

end FitAssist

namespace FitAssist

/-- An 80-day daily frame: constant intake, linearly decreasing trend
weight, constant body-fat fraction.  All three physiological columns are
fully populated, and the target's trend column is present. -/
def F80 : Frame :=
  ⟨(List.range 80).map (fun i => (i : ℤ)),
   [("TrendCaloriesIn", (List.range 80).map (fun _ => some (1500 : ℚ))),
    ("TrendWeight", (List.range 80).map (fun i => some ((100 : ℚ) - (i : ℚ)))),
    ("TrendBodyFatPercentage", (List.range 80).map (fun _ => some ((1 : ℚ) / 4)))]⟩

/-- A regressor stub: the external XGBoost collaborator instantiated with
the constant-zero predictor. -/
def constFit : List (List ℚ) → List ℚ → (List (Option ℚ) → ℚ) :=
  fun _ _ => fun _ => 0

/-- The aligned row indices `forecast_metric` trains on for `F80`
(component 7 of `forecast_prep`). -/
def F80aligned : List ℕ :=
  ((forecast_prep F80 "Weight" 0).toOption.getD
    (⟨[], []⟩, [], [], [], [], [], [], [], [])).2.2.2.2.2.2.1

end FitAssist

set_option maxRecDepth 100000

/-- C6 counterexample: on an 80-day frame whose `TrendWeight` column is
present, only one valid row survives feature construction and alignment —
far fewer than 2×window = 42 — yet `forecast_metric` does not fail with an
insufficient-data error: it fits the regressor and returns predictions. -/
theorem FitAssist.forecast_metric_fits_below_minimum :
    FitAssist.F80aligned.length = 1 ∧ (1 : ℕ) < 42 ∧
    (FitAssist.forecast_metric FitAssist.constFit FitAssist.F80 "Weight" [30] 0
      FitAssist.Sex.male).toOption.isSome = true :=
  ⟨by decide, by decide, rfl⟩

/-- C6 (amended): `forecast_metric` performs no minimum-row check. It fails
when the target's trend column is absent (a `ValueError`), but with the
columns present it fits the regressor on however many rows survive feature
construction and alignment — on the 80-day frame a single row, far below
2×window = 42 — and returns predictions. -/
theorem FitAssist.forecast_metric_missing_column_only
    (fit : List (List ℚ) → List ℚ → (List (Option ℚ) → ℚ))
    (df0 : FitAssist.Frame) (target : String) (days : List ℕ) (dob : ℤ)
    (sex : FitAssist.Sex) (w tn : ℕ)
    (h : (df0.sortByDate).hasCol ("Trend" ++ target) = false) :
    FitAssist.forecast_metric fit df0 target days dob sex w tn
      = Except.error (FitAssist.PyErr.other
          ("ValueError: Missing trend column: " ++ ("Trend" ++ target))) ∧
    (∀ fit2, (FitAssist.forecast_metric fit2 FitAssist.F80 "Weight" [30] 0
        FitAssist.Sex.male).toOption.isSome = true ∧
      FitAssist.F80aligned.length < 2 * 21) := by
  constructor
  · unfold FitAssist.forecast_metric FitAssist.forecast_prep
    simp only [h, if_true]
  · intro fit2
    exact ⟨rfl, by decide⟩

/-- C6 witness: the amended theorem applied to a frame with no
`TrendFatMass` column (error case) and, through its second conjunct, to
the 80-day frame where a one-row fit succeeds. -/
theorem FitAssist.forecast_metric_missing_column_only_witness :
    FitAssist.forecast_metric FitAssist.constFit FitAssist.noCaloriesFrame
        "FatMass" [7] 0 FitAssist.Sex.male 21 5
      = Except.error (FitAssist.PyErr.other
          ("ValueError: Missing trend column: " ++ ("Trend" ++ "FatMass"))) ∧
    (∀ fit2, (FitAssist.forecast_metric fit2 FitAssist.F80 "Weight" [30] 0
        FitAssist.Sex.male).toOption.isSome = true ∧
      FitAssist.F80aligned.length < 2 * 21) :=
  FitAssist.forecast_metric_missing_column_only FitAssist.constFit
    FitAssist.noCaloriesFrame "FatMass" [7] 0 FitAssist.Sex.male 21 5 rfl
